import Mathlib

/-!
Verification of the structured SQL query builder.

The repository contains two revisions of the builder:

* the self-contained revision `src/query_builder.py` + `src/expression_parser.py`
  (the only revision whose `build_statement` entry point is present in the
  sources; the unit tests drive this revision), embedded below in namespace
  `QB`; and
* the newer revision `src/models.py` + `src/parsers.py` + `src/operators.py`
  + `src/clauses.py`, embedded (for the parts the claims need) in namespace
  `NW`.  Its 4-argument `build_statement` driver is referenced by
  `src/parsers.py` but is not among the source files, so the `NW`
  compilers that recurse into sub-queries are parameterized by the
  expression-parser dependency exactly at that module boundary.

Embedding conventions:

* Python data (the nested dict/list/scalar specs) is the inductive `QB.Data`;
  Python `dict`s are association lists with distinct keys, `d[k]` is `lookup`,
  `k in d` is `hasKey`.  Python `float` payloads are never computed with by the
  builder (they are only carried into the parameter list), so they are modelled
  as opaque literals `Data.float s`.
* psycopg `sql.Composable` values are lists of fragments `QB.Frag`:
  `sql.SQL s` is `.sql s`, `sql.Identifier s` is `.ident s` and
  `sql.Placeholder()` is `.placeholder`; `as_string` is `QB.render`
  (identifiers are double-quoted, the placeholder renders as `%s`).
* every compiler in the source threads an append-only accumulator pair
  `(statement, values)` that is never read, only extended; each compiler is
  therefore embedded as the *contribution* it appends, of type `QB.PRes`,
  and `statement += x` becomes emitting `x` in sequence (`QB.pcat`).
* all Python exceptions (ValueError, TypeError, AttributeError, KeyError,
  pydantic ValidationError) surface as `Except.error`; the builder never
  catches exceptions, so any error aborts the whole build, which is all the
  claims depend on.
* the mutual recursion between `build_statement` and `parse_expression` is
  embedded as one fuel-indexed interpreter `QB.run` over the defunctionalized
  call type `QB.Call`; each `Call` constructor corresponds to one Python
  function of the old revision and its match arm is that function's body.
  Fuel only bounds the recursion depth: theorems about successful runs hold
  for every fuel value.
-/

namespace QB

/-- A Python value as consumed by the query builder: scalars, lists and
(string-keyed, insertion-ordered) dictionaries. -/
inductive Data where
  | null : Data
  | bool (b : Bool) : Data
  | int (n : Int) : Data
  | float (x : String) : Data
  | str (s : String) : Data
  | list (xs : List Data) : Data
  | dict (kvs : List (String × Data)) : Data

/-- A Python dictionary body. -/
abbrev Dict := List (String × Data)

/-- A bound parameter value, as appended by `parse_value`. -/
inductive Val where
  | none : Val
  | bool (b : Bool) : Val
  | int (n : Int) : Val
  | float (x : String) : Val
  | str (s : String) : Val
deriving DecidableEq, Repr

/-- One psycopg `sql.Composable` atom of the compiled command. -/
inductive Frag where
  | sql (s : String) : Frag
  | ident (s : String) : Frag
  | placeholder : Frag
deriving DecidableEq, Repr

/-- `d[k]` / `k in d` for a Python dict body (keys are unique). -/
def lookup : Dict → String → Option Data
  | [], _ => Option.none
  | (k, v) :: rest, key => if k = key then Option.some v else lookup rest key

/-- `k in d` for a dict body. -/
def hasKey (kvs : Dict) (k : String) : Bool :=
  (lookup kvs k).isSome

/-- `k in d` on arbitrary data, false on non-dicts (the compilers only reach
these tests on dicts; on other shapes the Python code raises first). -/
def hasKeyD : Data → String → Bool
  | .dict kvs, k => hasKey kvs k
  | _, _ => false

/-- `d[k]` on arbitrary data, none on non-dicts. -/
def lookupD : Data → String → Option Data
  | .dict kvs, k => lookup kvs k
  | _, _ => Option.none

/-- Python `dict | {k: v}`: set or replace one key. -/
def setKey (kvs : Dict) (k : String) (v : Data) : Dict :=
  if hasKey kvs k then kvs.map (fun kv => if kv.1 = k then (k, v) else kv)
  else kvs ++ [(k, v)]

/-- Remove one key from a dict body (the `{k: v for ... if k != key}`
comprehension of `parse_order_by_item`). -/
def eraseKey (kvs : Dict) (k : String) : Dict :=
  kvs.filter (fun kv => kv.1 ≠ k)

/-- Python truthiness of a value. (Opaque float literals are treated as
truthy; the builder only tests truthiness of flag fields, never of float
payloads.) -/
def Data.truthy : Data → Bool
  | .null => false
  | .bool b => b
  | .int n => n ≠ 0
  | .float _ => true
  | .str s => s ≠ ""
  | .list xs => !xs.isEmpty
  | .dict kvs => !kvs.isEmpty

/-- Python `enumerate(x)`: lists iterate over elements, dicts over their keys,
strings over their characters; scalars raise TypeError. -/
def Data.iter : Data → Except String (List Data)
  | .list xs => .ok xs
  | .dict kvs => .ok (kvs.map (fun kv => Data.str kv.1))
  | .str s => .ok (s.toList.map (fun c => Data.str (String.mk [c])))
  | _ => .error "TypeError: object is not iterable"

/-- `x.upper()` demands a string (AttributeError otherwise). -/
def asStr : Data → Except String String
  | .str s => .ok s
  | _ => .error "AttributeError"

/-- Python `str.upper()`, character-wise (kernel-reducible counterpart of
`(upper String)`). -/
def upper (s : String) : String :=
  String.mk (s.toList.map Char.toUpper)

/-- `sql.Identifier(x)` demands a string (psycopg raises TypeError
otherwise). -/
def identE : Data → Except String Frag
  | .str s => .ok (Frag.ident s)
  | _ => .error "TypeError: SQL identifier parts must be strings"

/-- The scalar payloads `parse_value` accepts, converted to bound values
(`bool(value)` on a bool is the bool itself). -/
def toVal : Data → Option Val
  | .null => Option.some Val.none
  | .bool b => Option.some (Val.bool b)
  | .int n => Option.some (Val.int n)
  | .float x => Option.some (Val.float x)
  | .str s => Option.some (Val.str s)
  | _ => Option.none

/-- The contribution of one compiler call: the emitted command fragments and
the appended parameters, or the raised exception. -/
abbrev PRes := Except String (List Frag × List Val)

/-- Decidable equality of compiler results, so that concrete runs can be
checked by `decide`. -/
instance : DecidableEq PRes :=
  fun a b =>
    match a, b with
    | .error e1, .error e2 =>
      if h : e1 = e2 then .isTrue (by rw [h])
      else .isFalse (fun he => by cases he; exact h rfl)
    | .ok r1, .ok r2 =>
      if h : r1 = r2 then .isTrue (by rw [h])
      else .isFalse (fun he => by cases he; exact h rfl)
    | .error _, .ok _ => .isFalse (fun he => by cases he)
    | .ok _, .error _ => .isFalse (fun he => by cases he)

/-- Emit fixed fragments (a sequence of `statement += sql.SQL(...)` /
`sql.Identifier(...)` with no parameters). -/
def emitF (fs : List Frag) : PRes := .ok (fs, [])

/-- The empty contribution. -/
def pure0 : PRes := .ok ([], [])

/-- Sequential composition of two contributions: Python's sequencing of two
append-only compiler calls on the shared accumulator. -/
def pcat (a b : PRes) : PRes :=
  match a with
  | .error e => .error e
  | .ok (d1, w1) =>
    match b with
    | .error e => .error e
    | .ok (d2, w2) => .ok (d1 ++ d2, w1 ++ w2)

/-- Emit around a quoted identifier, propagating the TypeError of
`sql.Identifier` on non-strings. -/
def identArm (x : Data) (g : Frag → PRes) : PRes :=
  match identE x with
  | .ok f => g f
  | .error e => .error e

/-- Whether a compiler call returned normally. -/
def isOk : PRes → Bool
  | .ok _ => true
  | .error _ => false

/-- Number of placeholder tokens in a fragment list. -/
def countPh : List Frag → Nat
  | [] => 0
  | .placeholder :: rest => countPh rest + 1
  | _ :: rest => countPh rest

/-- psycopg identifier quoting: wrap in double quotes, doubling embedded
quotes. -/
def escId (s : String) : String :=
  String.mk (s.toList.foldr
    (fun c acc => if c = '\"' then '\"' :: '\"' :: acc else c :: acc) [])

/-- Render one fragment the way psycopg `as_string` does. -/
def Frag.render : Frag → String
  | .sql s => s
  | .ident s => "\"" ++ escId s ++ "\""
  | .placeholder => "%s"

/-- Render a compiled command to its final text. -/
def render (fs : List Frag) : String :=
  fs.foldl (fun acc f => acc ++ f.render) ""

/-- Substring test used to state the literal-leakage claim. -/
def containsStr (haystack needle : String) : Bool :=
  (List.range (haystack.toList.length + 1)).any
    (fun i => needle.toList.isPrefixOf (haystack.toList.drop i))

/-- `expression_parser.parse_value` (lines 365-397): the one code path that
emits a positional placeholder and appends the literal payload. -/
def parse_value (kw : Dict) : PRes :=
  match lookup kw "value" with
  | Option.none => .error "Value requires 'value' argument"
  | Option.some v =>
    match toVal v with
    | Option.some w => .ok ([Frag.placeholder], [w])
    | Option.none => .error "Unsupported value type"

/-- `expression_parser.parse_column` (lines 52-70): quoted identifier,
optionally correlation-qualified; a bare `*` is emitted unquoted. -/
def parse_column (kw : Dict) : PRes :=
  match lookup kw "column" with
  | Option.none => .error "Column reference requires 'column' argument"
  | Option.some col =>
    pcat
      (match lookup kw "correlation" with
        | Option.some c => identArm c (fun f => emitF [f, Frag.sql "."])
        | Option.none => pure0)
      (match col with
        | .str s => if s = "*" then emitF [Frag.sql "*"] else emitF [Frag.ident s]
        | _ => .error "TypeError: SQL identifier parts must be strings")

/-- The comma-separated identifier loop of `parse_column_list`. -/
def colIdents : List Data → Bool → PRes
  | [], _ => pure0
  | x :: rest, first =>
    pcat (if first then pure0 else emitF [Frag.sql ", "])
      (pcat (identArm x (fun f => emitF [f])) (colIdents rest false))

/-- `expression_parser.parse_column_list` (lines 36-49): a parenthesized,
comma-joined list of quoted identifiers (contributes no parameters). -/
def parse_column_list (d : Data) : PRes :=
  match Data.iter d with
  | .error e => .error e
  | .ok xs => pcat (emitF [Frag.sql " ("]) (pcat (colIdents xs true) (emitF [Frag.sql ")"]))

/-- The `parser=` callbacks handed to `parse_expression_list` by the clause
compilers of the old revision, defunctionalized. -/
inductive PTag where
  | withItem : PTag
  | selectItem : PTag
  | orderByItem : PTag

/-- One constructor per function of the mutually recursive old-revision
compiler (`query_builder.py` + `expression_parser.py`). -/
inductive Call where
  | bs (criteria : Data) : Call
  | combineClause (d : Data) : Call
  | combineItems (xs : List Data) : Call
  | withClause (d : Data) : Call
  | withItem (d : Data) : Call
  | deleteClause : Call
  | insertClause (d : Data) : Call
  | selectClause (d : Data) : Call
  | selectItem (d : Data) : Call
  | updateClause (d : Data) : Call
  | updateSet (ps : List (String × Data)) (first : Bool) : Call
  | valuesClause (d : Data) : Call
  | valuesItems (xs : List Data) (first : Bool) : Call
  | fromClause (d : Data) : Call
  | fromItems (xs : List Data) (first : Bool) : Call
  | fromItem (d : Data) : Call
  | whereClause (d : Data) : Call
  | groupByClause (d : Data) : Call
  | havingClause (d : Data) : Call
  | orderByClause (d : Data) : Call
  | orderByItem (d : Data) : Call
  | limitClause (d : Data) : Call
  | offsetClause (d : Data) : Call
  | returningClause (d : Data) : Call
  | expr (d : Data) (joiner : Option String) (tag : Option PTag) : Call
  | exprItems (xs : List Data) (joiner : Option String) (tag : Option PTag) (first : Bool) : Call
  | exprFunction (kw : Dict) : Call
  | exprOperator (kw : Dict) : Call
  | opBinary (tok : String) (kw : Dict) : Call
  | opUnary (tok : String) (kw : Dict) : Call
  | opMixed (tok : String) (kw : Dict) : Call
  | opAnd (kw : Dict) : Call
  | opOr (kw : Dict) : Call
  | opCast (kw : Dict) : Call
  | opIn (kw : Dict) : Call
  | opTrim (kw : Dict) : Call

/-- `if key in criteria: parse_X(criteria[key], ...)` — the optional-clause
pattern of `build_statement`. -/
def maybeRun (kvs : Dict) (k : String) (f : Data → PRes) : PRes :=
  match lookup kvs k with
  | Option.some x => f x
  | Option.none => pure0

/-- The allow-list of `parse_operator_cast` (lines 187-220). -/
def castTypes : List String :=
  ["BIGINT", "BIGSERIAL", "BIT", "BOOLEAN", "BOX", "BYTEA", "CHARACTER",
   "CIRCLE", "DATE", "DECIMAL", "DOUBLE PRECISION", "INTEGER", "INTERVAL",
   "JSON", "JSONB", "LINE", "LSEG", "MONEY", "NUMERIC", "PATH", "POINT",
   "POLYGON", "REAL", "REGCLASS", "SERIAL", "SMALLINT", "SMALLSERIAL",
   "TEXT", "TIME", "TIMESTAMP", "UUID", "XML"]

/-- The allow-list of INTERVAL units (lines 229-243). -/
def intervalTypes : List String :=
  ["YEAR", "MONTH", "DAY", "HOUR", "MINUTE", "SECOND", "YEAR TO MONTH",
   "DAY TO HOUR", "DAY TO MINUTE", "DAY TO SECOND", "HOUR TO MINUTE",
   "HOUR TO SECOND", "MINUTE TO SECOND"]

/-- `match o with some x => f x | none => z`: the Python idiom
`... d[key] ... if key in d else z`. -/
def optArm {α : Type} (o : Option α) (f : α → PRes) (z : PRes) : PRes :=
  match o with
  | Option.some x => f x
  | Option.none => z

/-- `optArm` mirror for the value traversal. -/
def optVal {α : Type} (o : Option α) (g : α → List Val) (vz : List Val) : List Val :=
  match o with
  | Option.some x => g x
  | Option.none => vz

/-- Propagate a raised exception, continue on the normal result. -/
def excArm {α : Type} (e : Except String α) (f : α → PRes) : PRes :=
  match e with
  | .ok x => f x
  | .error err => .error err

/-- `excArm` mirror for the value traversal. -/
def excVal {α : Type} (e : Except String α) (g : α → List Val) : List Val :=
  match e with
  | .ok x => g x
  | .error _ => []

/-- Truthiness of `key in d and d[key]` (false when the key is absent). -/
def truthyOf (o : Option Data) : Bool :=
  match o with
  | Option.some v => v.truthy
  | Option.none => false

/-- `d[key]` where the compiler has already established presence; the
`Data.null` default is never reached on the paths that use it. -/
def getD (kw : Dict) (k : String) : Data :=
  match lookup kw k with
  | Option.some v => v
  | Option.none => Data.null

/-- `kwargs.get("args", [])` of `parse_function` (line 92). -/
def argsOf (kw : Dict) : Data :=
  match lookup kw "args" with
  | Option.some a => a
  | Option.none => Data.list []

/-- The `if "alias" in item: statement += " AS " + Identifier(item["alias"])`
idiom shared by several clause parsers. -/
def aliasArm (o : Option Data) : PRes :=
  optArm o (fun a => identArm a (fun f => emitF [Frag.sql " AS ", f])) pure0

/-- The `if "columns" in item: parse_column_list(...)` idiom. -/
def columnsArm (o : Option Data) : PRes :=
  optArm o (fun c => parse_column_list c) pure0

/-- The combine-type validation of `parse_combine` (lines 21-28): a non-last
item must carry a `type` naming UNION/INTERSECT/EXCEPT (case-insensitively),
and the keyword is emitted. -/
def combineTypeArm (x : Data) : PRes :=
  optArm (lookupD x "type")
    (fun tv => excArm (asStr tv) (fun s =>
      if (upper s) = "UNION" || (upper s) = "INTERSECT" || (upper s) = "EXCEPT" then
        emitF [Frag.sql (" " ++ (upper s) ++ " ")]
      else .error ("Invalid combine type: " ++ (upper s))))
    (.error "Intermediate combine items must have 'type'")

/-- `ALL ` or `DISTINCT ` after the combine keyword (lines 29-32). -/
def combineAllArm (x : Data) : PRes :=
  if truthyOf (lookupD x "all") then emitF [Frag.sql "ALL "]
  else emitF [Frag.sql "DISTINCT "]

/-- The join-type validation of the old `parse_from` (lines 211-220). -/
def joinTypeArm (x : Data) : PRes :=
  optArm (lookupD x "type")
    (fun tv => excArm (asStr tv) (fun s =>
      if (upper s) = "INNER" || (upper s) = "LEFT" || (upper s) = "RIGHT" ||
          (upper s) = "FULL" || (upper s) = "CROSS" then
        emitF [Frag.sql (" " ++ (upper s) ++ " JOIN ")]
      else .error ("Invalid join type: " ++ (upper s))))
    (.error "JOIN items must have 'type'")

/-- The INTERVAL-unit validation of `parse_operator_cast` (lines 227-246). -/
def intervalArm (kw : Dict) : PRes :=
  optArm (lookup kw "interval")
    (fun iv => excArm (asStr iv) (fun i =>
      if intervalTypes.contains (upper i) then emitF [Frag.sql (upper i)]
      else .error ("Unsupported INTERVAL type: " ++ (upper i))))
    pure0

/-- The optional `, scale` inside the precision suffix of the old CAST
(lines 255-256); `isinstance(x, int)` also accepts Python bools. -/
def castScaleArm (kw : Dict) : PRes :=
  match lookup kw "scale" with
  | Option.some (.int sc) => emitF [Frag.sql (", " ++ toString sc)]
  | Option.some (.bool b) => emitF [Frag.sql (", " ++ (if b then "True" else "False"))]
  | _ => pure0

/-- The length / precision / scale suffix of the old `parse_operator_cast`
(lines 251-257): an integer `length` wins and any `precision` is then
silently ignored; a non-integer `length` falls through to `precision`. -/
def castLenArm (kw : Dict) : PRes :=
  match lookup kw "length" with
  | Option.some (.int n) => emitF [Frag.sql ("(" ++ toString n ++ ")")]
  | Option.some (.bool b) =>
    emitF [Frag.sql ("(" ++ (if b then "True" else "False") ++ ")")]
  | _ =>
    match lookup kw "precision" with
    | Option.some (.int p) =>
      pcat (emitF [Frag.sql ("(" ++ toString p)])
        (pcat (castScaleArm kw) (emitF [Frag.sql ")"]))
    | Option.some (.bool b) =>
      pcat (emitF [Frag.sql ("(" ++ (if b then "True" else "False"))])
        (pcat (castScaleArm kw) (emitF [Frag.sql ")"]))
    | _ => pure0

/-- ASC/DESC resolution of `parse_order_by_item` (lines 265-267). -/
def directionOf (kvs : Dict) : Except String String :=
  match lookup kvs "direction" with
  | Option.none => .ok "ASC"
  | Option.some v =>
    match asStr v with
    | .error e => .error e
    | .ok s => .ok (upper s)

/-- Operand selection of `parse_mixed_operator` (line 147): `operand` if
present, otherwise `left` (KeyError when both are absent). -/
def operandOf (kw : Dict) : Option Data :=
  match lookup kw "operand" with
  | Option.some o => Option.some o
  | Option.none => lookup kw "left"

/-- The fuel-indexed interpreter of the old-revision compiler.  Each `Call`
arm is the body of the corresponding Python function; every nested call
decrements the fuel.  Exhausted fuel is an error, so theorems about
successful runs are fuel-independent. -/
def run (fuel : Nat) (c : Call) : PRes :=
  match fuel with
  | 0 => .error "out of fuel"
  | fuel + 1 =>
    match c with
    | .bs d =>
      -- query_builder.build_statement (lines 320-373)
      match d with
      | .dict kvs =>
        pcat (emitF [Frag.sql ""])
          (pcat (maybeRun kvs "combine" (fun x => run fuel (.combineClause x)))
            (pcat (maybeRun kvs "with" (fun x => run fuel (.withClause x)))
              (pcat
                (optArm (lookup kvs "delete") (fun _ => run fuel .deleteClause)
                  (optArm (lookup kvs "insert") (fun x => run fuel (.insertClause x))
                    (optArm (lookup kvs "select") (fun x => run fuel (.selectClause x))
                      (optArm (lookup kvs "update") (fun x => run fuel (.updateClause x))
                        pure0))))
                (pcat (maybeRun kvs "values" (fun x => run fuel (.valuesClause x)))
                  (pcat (maybeRun kvs "from" (fun x => run fuel (.fromClause x)))
                    (pcat (maybeRun kvs "where" (fun x => run fuel (.whereClause x)))
                      (pcat (maybeRun kvs "group_by" (fun x => run fuel (.groupByClause x)))
                        (pcat (maybeRun kvs "having" (fun x => run fuel (.havingClause x)))
                          (pcat (maybeRun kvs "order_by" (fun x => run fuel (.orderByClause x)))
                            (pcat (maybeRun kvs "limit" (fun x => run fuel (.limitClause x)))
                              (pcat (maybeRun kvs "offset" (fun x => run fuel (.offsetClause x)))
                                (maybeRun kvs "returning"
                                  (fun x => run fuel (.returningClause x))))))))))))))
      | _ => .error "TypeError: criteria is not a mapping"
    | .combineClause d =>
      -- query_builder.parse_combine (lines 10-37): enumerate the items
      excArm (Data.iter d) (fun xs => run fuel (.combineItems xs))
    | .combineItems xs =>
      match xs with
      | [] => pure0
      | x :: rest =>
        pcat (run fuel (.expr x Option.none Option.none))
          (if rest.isEmpty then
            (if hasKeyD x "type" || hasKeyD x "all" then
              .error "Last combine item cannot have 'type' or 'all'"
            else pure0)
          else
            pcat (combineTypeArm x)
              (pcat (combineAllArm x) (run fuel (.combineItems rest))))
    | .withClause d =>
      -- query_builder.parse_with (lines 70-78)
      excArm (Data.iter d) (fun xs =>
        pcat (emitF [Frag.sql " WITH "])
          (run fuel (.exprItems xs Option.none (Option.some PTag.withItem) true)))
    | .withItem d =>
      -- query_builder.parse_with_item (lines 40-67)
      match d with
      | .dict kvs =>
        if !(hasKey kvs "name") || !(hasKey kvs "sub_query") then
          .error "WITH item must have 'name' and 'sub_query'"
        else
          pcat
            (if truthyOf (lookup kvs "recursive") then emitF [Frag.sql "RECURSIVE "]
            else pure0)
            (pcat
              (optArm (lookup kvs "name") (fun nm => identArm nm (fun f => emitF [f]))
                (.error "unreachable"))
              (pcat (columnsArm (lookup kvs "columns"))
                (pcat (emitF [Frag.sql " AS"])
                  (pcat
                    (optArm (lookup kvs "materialized")
                      (fun v =>
                        if v.truthy then emitF [Frag.sql " MATERIALIZED"]
                        else emitF [Frag.sql " NOT MATERIALIZED"])
                      pure0)
                    (pcat (emitF [Frag.sql " "])
                      (run fuel (.expr d Option.none Option.none)))))))
      | _ => .error "TypeError"
    | .deleteClause =>
      -- query_builder.parse_delete (lines 81-88)
      emitF [Frag.sql " DELETE "]
    | .insertClause d =>
      -- query_builder.parse_insert (lines 91-109)
      match d with
      | .dict kvs =>
        optArm (lookup kvs "table")
          (fun t =>
            pcat (identArm t (fun f => emitF [Frag.sql " INSERT INTO ", f]))
              (pcat (aliasArm (lookup kvs "alias")) (columnsArm (lookup kvs "columns"))))
          (.error "INSERT statement must have 'table'")
      | _ => .error "TypeError"
    | .selectClause d =>
      -- query_builder.parse_select (lines 127-135)
      excArm (Data.iter d) (fun xs =>
        pcat (emitF [Frag.sql " SELECT "])
          (run fuel (.exprItems xs Option.none (Option.some PTag.selectItem) true)))
    | .selectItem d =>
      -- query_builder.parse_select_item (lines 112-124)
      pcat (run fuel (.expr d Option.none Option.none)) (aliasArm (lookupD d "alias"))
    | .updateClause d =>
      -- query_builder.parse_update (lines 138-163)
      match d with
      | .dict kvs =>
        optArm (lookup kvs "table")
          (fun t =>
            pcat (identArm t (fun f => emitF [Frag.sql " UPDATE ", f]))
              (pcat (aliasArm (lookup kvs "alias"))
                (optArm (lookup kvs "set")
                  (fun sv =>
                    match sv with
                    | .dict ps =>
                      pcat (emitF [Frag.sql " SET "]) (run fuel (.updateSet ps true))
                    | _ => .error "UPDATE statement must have 'set' clause as a dictionary")
                  (.error "UPDATE statement must have 'set' clause as a dictionary"))))
          (.error "UPDATE statement must have 'table'")
      | _ => .error "TypeError"
    | .updateSet ps first =>
      match ps with
      | [] => pure0
      | (col, v) :: rest =>
        pcat (if first then pure0 else emitF [Frag.sql ", "])
          (pcat (emitF [Frag.ident col, Frag.sql " = "])
            (pcat (run fuel (.expr v Option.none Option.none))
              (run fuel (.updateSet rest false))))
    | .valuesClause d =>
      -- query_builder.parse_values (lines 166-180)
      excArm (Data.iter d) (fun xs =>
        pcat (emitF [Frag.sql " VALUES "]) (run fuel (.valuesItems xs true)))
    | .valuesItems xs first =>
      match xs with
      | [] => pure0
      | x :: rest =>
        pcat (if first then pure0 else emitF [Frag.sql ", "])
          (pcat (emitF [Frag.sql "("])
            (pcat (run fuel (.expr x Option.none Option.none))
              (pcat (emitF [Frag.sql ")"]) (run fuel (.valuesItems rest false)))))
    | .fromClause d =>
      -- query_builder.parse_from (lines 203-222)
      excArm (Data.iter d) (fun xs =>
        pcat (emitF [Frag.sql " FROM "]) (run fuel (.fromItems xs true)))
    | .fromItems xs first =>
      match xs with
      | [] => pure0
      | x :: rest =>
        pcat (if first then pure0 else joinTypeArm x)
          (pcat (run fuel (.fromItem x)) (run fuel (.fromItems rest false)))
    | .fromItem d =>
      -- query_builder.parse_from_item (lines 183-200); note that this
      -- revision never reads the 'on' key
      match d with
      | .dict kvs =>
        pcat
          (if hasKey kvs "sub_query" then run fuel (.expr d Option.none Option.none)
          else
            optArm (lookup kvs "table") (fun t => identArm t (fun f => emitF [f]))
              (.error "Invalid FROM item"))
          (aliasArm (lookup kvs "alias"))
      | _ => .error "TypeError"
    | .whereClause d =>
      -- query_builder.parse_where (lines 225-233)
      excArm (Data.iter d) (fun xs =>
        pcat (emitF [Frag.sql " WHERE "])
          (run fuel (.exprItems xs (Option.some " AND ") Option.none true)))
    | .groupByClause d =>
      -- query_builder.parse_group_by (lines 236-244): AND-joined, like WHERE
      excArm (Data.iter d) (fun xs =>
        pcat (emitF [Frag.sql " GROUP BY "])
          (run fuel (.exprItems xs (Option.some " AND ") Option.none true)))
    | .havingClause d =>
      -- query_builder.parse_having (lines 247-255)
      excArm (Data.iter d) (fun xs =>
        pcat (emitF [Frag.sql " HAVING "])
          (run fuel (.exprItems xs (Option.some " AND ") Option.none true)))
    | .orderByClause d =>
      -- query_builder.parse_order_by (lines 274-284)
      excArm (Data.iter d) (fun xs =>
        pcat (emitF [Frag.sql " ORDER BY "])
          (run fuel (.exprItems xs Option.none (Option.some PTag.orderByItem) true)))
    | .orderByItem d =>
      -- query_builder.parse_order_by_item (lines 258-271)
      match d with
      | .dict kvs =>
        excArm (directionOf kvs) (fun direction =>
          if direction = "ASC" || direction = "DESC" then
            pcat (run fuel (.expr (.dict (eraseKey kvs "direction")) Option.none Option.none))
              (emitF [Frag.sql (" " ++ direction)])
          else .error ("Invalid ORDER BY direction: " ++ direction))
      | _ => .error "TypeError"
    | .limitClause d =>
      -- query_builder.parse_limit (lines 287-295)
      pcat (emitF [Frag.sql " LIMIT "]) (run fuel (.expr d Option.none Option.none))
    | .offsetClause d =>
      -- query_builder.parse_offset (lines 298-306)
      pcat (emitF [Frag.sql " OFFSET "]) (run fuel (.expr d Option.none Option.none))
    | .returningClause d =>
      -- query_builder.parse_returning (lines 309-317)
      excArm (Data.iter d) (fun xs =>
        pcat (emitF [Frag.sql " RETURNING "])
          (run fuel (.exprItems xs Option.none Option.none true)))
    | .expr d joiner tag =>
      -- expression_parser.parse_expression (lines 400-438): the duck-typed
      -- dispatch of the old revision, in source order
      match d with
      | .list xs => run fuel (.exprItems xs joiner tag true)
      | .dict kvs =>
        if hasKey kvs "column" then parse_column kvs
        else if hasKey kvs "function_name" then run fuel (.exprFunction kvs)
        else if hasKey kvs "operator" then run fuel (.exprOperator kvs)
        else if hasKey kvs "value" then parse_value kvs
        else if truthyOf (lookup kvs "default") then emitF [Frag.sql "DEFAULT"]
        else
          optArm (lookup kvs "sub_query")
            (fun sq =>
              pcat (emitF [Frag.sql "("]) (pcat (run fuel (.bs sq)) (emitF [Frag.sql ")"])))
            (.error "Invalid expression")
      | _ => .error "TypeError"
    | .exprItems xs joiner tag first =>
      -- expression_parser.parse_expression_list (lines 10-33)
      match xs with
      | [] => pure0
      | x :: rest =>
        pcat
          (if first then pure0
          else
            emitF [Frag.sql (match joiner with
              | Option.some j => j
              | Option.none => ", ")])
          (pcat
            (match tag with
              | Option.none => run fuel (.expr x Option.none Option.none)
              | Option.some PTag.withItem => run fuel (.withItem x)
              | Option.some PTag.selectItem => run fuel (.selectItem x)
              | Option.some PTag.orderByItem => run fuel (.orderByItem x))
            (run fuel (.exprItems rest joiner tag false)))
    | .exprFunction kw =>
      -- expression_parser.parse_function (lines 73-93); note the source
      -- emits the dot before the schema identifier
      optArm (lookup kw "function_name")
        (fun fv => excArm (asStr fv) (fun s =>
          if (upper s) = "MAX" || (upper s) = "TRIM" || (upper s) = "UPPER" then
            pcat
              (optArm (lookup kw "schema_name")
                (fun sc => identArm sc (fun f => emitF [Frag.sql ".", f])) pure0)
              (pcat (emitF [Frag.sql (upper s), Frag.sql "("])
                (pcat (run fuel (.expr (argsOf kw) Option.none Option.none))
                  (emitF [Frag.sql ")"])))
          else .error ("Unsupported function: " ++ (upper s))))
        (.error "Function call requires 'function_name' argument")
    | .exprOperator kw =>
      -- expression_parser.parse_operator (lines 331-362)
      optArm (lookup kw "operator")
        (fun ov => excArm (asStr ov) (fun s =>
          if (upper s) = "=" || (upper s) = "!=" || (upper s) = "<>" ||
              (upper s) = ">" || (upper s) = "<" || (upper s) = ">=" ||
              (upper s) = "<=" || (upper s) = "*" || (upper s) = "/" ||
              (upper s) = "%" then
            run fuel (.opBinary (" " ++ (upper s) ++ " ") kw)
          else if (upper s) = "+" || (upper s) = "-" then
            run fuel (.opMixed (" " ++ (upper s) ++ " ") kw)
          else if (upper s) = "AND" then run fuel (.opAnd kw)
          else if (upper s) = "CAST" then run fuel (.opCast kw)
          else if (upper s) = "IN" then run fuel (.opIn kw)
          else if (upper s) = "OR" then run fuel (.opOr kw)
          else if (upper s) = "TRIM" then run fuel (.opTrim kw)
          else .error ("Unsupported operator: " ++ (upper s))))
        (.error "Operator requires 'operator' argument")
    | .opBinary tok kw =>
      -- expression_parser.parse_infix_operator (lines 96-112)
      if hasKey kw "left" && hasKey kw "right" then
        pcat (run fuel (.expr (getD kw "left") Option.none Option.none))
          (pcat (emitF [Frag.sql tok])
            (run fuel (.expr (getD kw "right") Option.none Option.none)))
      else .error "Operator requires 'left' and 'right' arguments"
    | .opUnary tok kw =>
      -- expression_parser.parse_prefix_operator (lines 115-130)
      optArm (lookup kw "operand")
        (fun o => pcat (emitF [Frag.sql tok]) (run fuel (.expr o Option.none Option.none)))
        (.error "Operator requires 'operand' argument")
    | .opMixed tok kw =>
      -- expression_parser.parse_mixed_operator (lines 133-155)
      if hasKey kw "left" && hasKey kw "right" then run fuel (.opBinary tok kw)
      else
        optArm (operandOf kw)
          (fun o =>
            match o with
            | Data.null => .error "Operator requires 'operand', 'left', and/or 'right' arguments"
            | _ => run fuel (.opUnary tok (setKey kw "operand" o)))
          (.error "KeyError: left")
    | .opAnd kw =>
      -- expression_parser.parse_operator_and (lines 158-173)
      optArm (lookup kw "expressions")
        (fun es =>
          pcat (emitF [Frag.sql "("])
            (pcat (run fuel (.expr es (Option.some " AND ") Option.none))
              (emitF [Frag.sql ")"])))
        (.error "AND operator requires 'expressions' argument")
    | .opOr kw =>
      -- expression_parser.parse_operator_or (lines 286-301); its error
      -- message also says AND, copied from the source
      optArm (lookup kw "expressions")
        (fun es =>
          pcat (emitF [Frag.sql "("])
            (pcat (run fuel (.expr es (Option.some " OR ") Option.none))
              (emitF [Frag.sql ")"])))
        (.error "AND operator requires 'expressions' argument")
    | .opCast kw =>
      -- expression_parser.parse_operator_cast (lines 176-262); this
      -- revision never rejects length+precision together: the length wins
      if !(hasKey kw "expression" && hasKey kw "type") then
        .error "CAST operator requires 'expression' and 'type' arguments"
      else
        optArm (lookup kw "type")
          (fun tv => excArm (asStr tv) (fun s =>
            if castTypes.contains (upper s) then
              pcat (emitF [Frag.sql "CAST("])
                (pcat (run fuel (.expr (getD kw "expression") Option.none Option.none))
                  (pcat (emitF [Frag.sql (" AS " ++ (upper s))])
                    (pcat (intervalArm kw)
                      (pcat
                        (if truthyOf (lookup kw "varying") then emitF [Frag.sql " VARYING"]
                        else pure0)
                        (pcat (castLenArm kw)
                          (pcat
                            (if truthyOf (lookup kw "with_time_zone") then
                              emitF [Frag.sql " WITH TIME ZONE"]
                            else pure0)
                            (emitF [Frag.sql ")"])))))))
            else .error ("Unsupported CAST type: " ++ (upper s))))
          (.error "unreachable")
    | .opIn kw =>
      -- expression_parser.parse_operator_in (lines 265-283)
      if !(hasKey kw "left" && hasKey kw "right") then
        .error "IN operator requires 'left' and 'right' arguments"
      else
        optArm (lookup kw "right")
          (fun rv =>
            match rv with
            | .list xs =>
              pcat (run fuel (.expr (getD kw "left") Option.none Option.none))
                (pcat (emitF [Frag.sql " IN ("])
                  (pcat (run fuel (.exprItems xs Option.none Option.none true))
                    (emitF [Frag.sql ")"])))
            | _ => .error "IN operator 'right' argument must be a list")
          (.error "unreachable")
    | .opTrim kw =>
      -- expression_parser.parse_operator_trim (lines 304-328)
      optArm (lookup kw "expression")
        (fun e =>
          pcat (emitF [Frag.sql "TRIM("])
            (pcat
              (if truthyOf (lookup kw "both") then emitF [Frag.sql "BOTH "]
              else if truthyOf (lookup kw "trailing") then emitF [Frag.sql "TRAILING "]
              else if truthyOf (lookup kw "leading") then emitF [Frag.sql "LEADING "]
              else pure0)
              (pcat
                (optArm (lookup kw "characters")
                  (fun ch =>
                    pcat (run fuel (.expr ch Option.none Option.none)) (emitF [Frag.sql " "]))
                  pure0)
                (pcat (emitF [Frag.sql "FROM "])
                  (pcat (run fuel (.expr e Option.none Option.none))
                    (emitF [Frag.sql ")"]))))))
        (.error "TRIM operator requires 'expression' argument")

/-- The Value payloads a dict node contributes when it is dispatched to
`parse_value`. -/
def valueVals (kw : Dict) : List Val :=
  match lookup kw "value" with
  | Option.some v =>
    (match toVal v with
      | Option.some w => [w]
      | Option.none => [])
  | Option.none => []

/-- `if key in criteria` counterpart of `maybeRun` for the traversal. -/
def maybeVals (kvs : Dict) (k : String) (f : Data → List Val) : List Val :=
  match lookup kvs k with
  | Option.some x => f x
  | Option.none => []

/-- The pre-order (depth-first) traversal of a spec that lists the literal
payload of every Value node in visiting order, clauses taken in the fixed
clause order of the statement grammar.  It mirrors the recursion of `run`
branch for branch but carries no compilation state: on a successful compile
the bound parameter list equals this traversal. -/
def vals (fuel : Nat) (c : Call) : List Val :=
  match fuel with
  | 0 => []
  | fuel + 1 =>
    match c with
    | .bs d =>
      match d with
      | .dict kvs =>
        maybeVals kvs "combine" (fun x => vals fuel (.combineClause x)) ++
          (maybeVals kvs "with" (fun x => vals fuel (.withClause x)) ++
            (optVal (lookup kvs "delete") (fun _ => vals fuel .deleteClause)
              (optVal (lookup kvs "insert") (fun x => vals fuel (.insertClause x))
                (optVal (lookup kvs "select") (fun x => vals fuel (.selectClause x))
                  (optVal (lookup kvs "update") (fun x => vals fuel (.updateClause x))
                    []))) ++
              (maybeVals kvs "values" (fun x => vals fuel (.valuesClause x)) ++
                (maybeVals kvs "from" (fun x => vals fuel (.fromClause x)) ++
                  (maybeVals kvs "where" (fun x => vals fuel (.whereClause x)) ++
                    (maybeVals kvs "group_by" (fun x => vals fuel (.groupByClause x)) ++
                      (maybeVals kvs "having" (fun x => vals fuel (.havingClause x)) ++
                        (maybeVals kvs "order_by" (fun x => vals fuel (.orderByClause x)) ++
                          (maybeVals kvs "limit" (fun x => vals fuel (.limitClause x)) ++
                            (maybeVals kvs "offset" (fun x => vals fuel (.offsetClause x)) ++
                              maybeVals kvs "returning"
                                (fun x => vals fuel (.returningClause x))))))))))))
      | _ => []
    | .combineClause d =>
      excVal (Data.iter d) (fun xs => vals fuel (.combineItems xs))
    | .combineItems xs =>
      match xs with
      | [] => []
      | x :: rest =>
        vals fuel (.expr x Option.none Option.none) ++
          (if rest.isEmpty then [] else vals fuel (.combineItems rest))
    | .withClause d =>
      excVal (Data.iter d)
        (fun xs => vals fuel (.exprItems xs Option.none (Option.some PTag.withItem) true))
    | .withItem d =>
      match d with
      | .dict _ => vals fuel (.expr d Option.none Option.none)
      | _ => []
    | .deleteClause => []
    | .insertClause _ => []
    | .selectClause d =>
      excVal (Data.iter d)
        (fun xs => vals fuel (.exprItems xs Option.none (Option.some PTag.selectItem) true))
    | .selectItem d => vals fuel (.expr d Option.none Option.none)
    | .updateClause d =>
      match d with
      | .dict kvs =>
        optVal (lookup kvs "table")
          (fun _ =>
            optVal (lookup kvs "set")
              (fun sv =>
                match sv with
                | .dict ps => vals fuel (.updateSet ps true)
                | _ => [])
              [])
          []
      | _ => []
    | .updateSet ps _ =>
      match ps with
      | [] => []
      | (_, v) :: rest =>
        vals fuel (.expr v Option.none Option.none) ++ vals fuel (.updateSet rest false)
    | .valuesClause d =>
      excVal (Data.iter d) (fun xs => vals fuel (.valuesItems xs true))
    | .valuesItems xs _ =>
      match xs with
      | [] => []
      | x :: rest =>
        vals fuel (.expr x Option.none Option.none) ++ vals fuel (.valuesItems rest false)
    | .fromClause d =>
      excVal (Data.iter d) (fun xs => vals fuel (.fromItems xs true))
    | .fromItems xs _ =>
      match xs with
      | [] => []
      | x :: rest => vals fuel (.fromItem x) ++ vals fuel (.fromItems rest false)
    | .fromItem d =>
      match d with
      | .dict kvs =>
        if hasKey kvs "sub_query" then vals fuel (.expr d Option.none Option.none) else []
      | _ => []
    | .whereClause d =>
      excVal (Data.iter d)
        (fun xs => vals fuel (.exprItems xs (Option.some " AND ") Option.none true))
    | .groupByClause d =>
      excVal (Data.iter d)
        (fun xs => vals fuel (.exprItems xs (Option.some " AND ") Option.none true))
    | .havingClause d =>
      excVal (Data.iter d)
        (fun xs => vals fuel (.exprItems xs (Option.some " AND ") Option.none true))
    | .orderByClause d =>
      excVal (Data.iter d)
        (fun xs => vals fuel (.exprItems xs Option.none (Option.some PTag.orderByItem) true))
    | .orderByItem d =>
      match d with
      | .dict kvs =>
        excVal (directionOf kvs) (fun direction =>
          if direction = "ASC" || direction = "DESC" then
            vals fuel (.expr (.dict (eraseKey kvs "direction")) Option.none Option.none)
          else [])
      | _ => []
    | .limitClause d => vals fuel (.expr d Option.none Option.none)
    | .offsetClause d => vals fuel (.expr d Option.none Option.none)
    | .returningClause d =>
      excVal (Data.iter d) (fun xs => vals fuel (.exprItems xs Option.none Option.none true))
    | .expr d joiner tag =>
      match d with
      | .list xs => vals fuel (.exprItems xs joiner tag true)
      | .dict kvs =>
        if hasKey kvs "column" then []
        else if hasKey kvs "function_name" then vals fuel (.exprFunction kvs)
        else if hasKey kvs "operator" then vals fuel (.exprOperator kvs)
        else if hasKey kvs "value" then valueVals kvs
        else if truthyOf (lookup kvs "default") then []
        else optVal (lookup kvs "sub_query") (fun sq => vals fuel (.bs sq)) []
      | _ => []
    | .exprItems xs joiner tag _ =>
      match xs with
      | [] => []
      | x :: rest =>
        (match tag with
          | Option.none => vals fuel (.expr x Option.none Option.none)
          | Option.some PTag.withItem => vals fuel (.withItem x)
          | Option.some PTag.selectItem => vals fuel (.selectItem x)
          | Option.some PTag.orderByItem => vals fuel (.orderByItem x)) ++
          vals fuel (.exprItems rest joiner tag false)
    | .exprFunction kw =>
      optVal (lookup kw "function_name")
        (fun fv => excVal (asStr fv) (fun s =>
          if (upper s) = "MAX" || (upper s) = "TRIM" || (upper s) = "UPPER" then
            vals fuel (.expr (argsOf kw) Option.none Option.none)
          else []))
        []
    | .exprOperator kw =>
      optVal (lookup kw "operator")
        (fun ov => excVal (asStr ov) (fun s =>
          if (upper s) = "=" || (upper s) = "!=" || (upper s) = "<>" ||
              (upper s) = ">" || (upper s) = "<" || (upper s) = ">=" ||
              (upper s) = "<=" || (upper s) = "*" || (upper s) = "/" ||
              (upper s) = "%" then
            vals fuel (.opBinary (" " ++ (upper s) ++ " ") kw)
          else if (upper s) = "+" || (upper s) = "-" then
            vals fuel (.opMixed (" " ++ (upper s) ++ " ") kw)
          else if (upper s) = "AND" then vals fuel (.opAnd kw)
          else if (upper s) = "CAST" then vals fuel (.opCast kw)
          else if (upper s) = "IN" then vals fuel (.opIn kw)
          else if (upper s) = "OR" then vals fuel (.opOr kw)
          else if (upper s) = "TRIM" then vals fuel (.opTrim kw)
          else []))
        []
    | .opBinary _ kw =>
      vals fuel (.expr (getD kw "left") Option.none Option.none) ++
        vals fuel (.expr (getD kw "right") Option.none Option.none)
    | .opUnary _ kw =>
      optVal (lookup kw "operand")
        (fun o => vals fuel (.expr o Option.none Option.none)) []
    | .opMixed tok kw =>
      if hasKey kw "left" && hasKey kw "right" then vals fuel (.opBinary tok kw)
      else
        optVal (operandOf kw)
          (fun o =>
            match o with
            | Data.null => []
            | _ => vals fuel (.opUnary tok (setKey kw "operand" o)))
          []
    | .opAnd kw =>
      optVal (lookup kw "expressions")
        (fun es => vals fuel (.expr es (Option.some " AND ") Option.none)) []
    | .opOr kw =>
      optVal (lookup kw "expressions")
        (fun es => vals fuel (.expr es (Option.some " OR ") Option.none)) []
    | .opCast kw =>
      if !(hasKey kw "expression" && hasKey kw "type") then []
      else
        optVal (lookup kw "type")
          (fun tv => excVal (asStr tv) (fun s =>
            if castTypes.contains (upper s) then
              vals fuel (.expr (getD kw "expression") Option.none Option.none)
            else []))
          []
    | .opIn kw =>
      if !(hasKey kw "left" && hasKey kw "right") then []
      else
        optVal (lookup kw "right")
          (fun rv =>
            match rv with
            | .list xs =>
              vals fuel (.expr (getD kw "left") Option.none Option.none) ++
                vals fuel (.exprItems xs Option.none Option.none true)
            | _ => [])
          []
    | .opTrim kw =>
      optVal (lookup kw "expression")
        (fun e =>
          optVal (lookup kw "characters")
            (fun ch => vals fuel (.expr ch Option.none Option.none)) [] ++
            vals fuel (.expr e Option.none Option.none))
        []

/-- The combine-chain placement rules stated by the data model: every item
except the last carries a `type` naming UNION/INTERSECT/EXCEPT
(case-insensitively); the last item carries neither `type` nor `all`. -/
def combineRulesOk : List Data → Bool
  | [] => true
  | [x] => !(hasKeyD x "type" || hasKeyD x "all")
  | x :: rest =>
    (match lookupD x "type" with
      | Option.some (Data.str s) =>
        ((upper s) = "UNION" || (upper s) = "INTERSECT" || (upper s) = "EXCEPT" : Bool)
      | _ => false) &&
    combineRulesOk rest

/-- The primary-verb keys that `build_statement`'s delete/insert/select/update
`elif` chain never reads for a given spec: everything below the
highest-precedence verb present. -/
def verbKeysBelow (kvs : Dict) : List String :=
  if hasKey kvs "delete" then ["insert", "select", "update"]
  else if hasKey kvs "insert" then ["select", "update"]
  else if hasKey kvs "select" then ["update"]
  else []

/-- Drop every primary-verb key below the highest-precedence verb present. -/
def topVerbErase : Data → Data
  | Data.dict kvs =>
    Data.dict (kvs.filter (fun kv => !((verbKeysBelow kvs).contains kv.1)))
  | d => d

/-- Join compiled item fragments with a separator token (the shape of
`parse_expression_list` output for a non-empty joiner). -/
def joinWith (j : Frag) : List (List Frag) → List Frag
  | [] => []
  | d :: ds => d ++ (ds.map (fun e => j :: e)).flatten

namespace NW

/-- The expression-parser dependency of the newer-revision clause compilers
(`parsers.parse_expression`): `src/parsers.py` closes its mutual recursion
through a 4-argument `qb.build_statement` that is not among the source
files, so the `NW` compilers take this dependency as a parameter, exactly at
that module boundary.  The second argument is the `joiner=` keyword. -/
def PE : Type := Data → Option String → PRes

/-- A trivial instantiation of the expression-parser dependency, used only
to give witnesses concrete closed statements; the theorems about the `NW`
compilers hold for every instantiation. -/
def peStub : PE := fun _ _ => pure0

/-- `models.get_expression_type` (lines 19-49): the duck-typed classifier of
the newer revision, checking shapes in the fixed source order
list, None, bool, int, float, str, then the dict keys
column, default, "function name", operator, "sub query", value. -/
def get_expression_type : Data → Except String String
  | Data.list _ => .ok "Sequence[ExpressionItem]"
  | Data.null => .ok "none"
  | Data.bool _ => .ok "bool"
  | Data.int _ => .ok "int"
  | Data.float _ => .ok "float"
  | Data.str _ => .ok "str"
  | Data.dict kvs =>
    if hasKey kvs "column" then .ok "column"
    else if hasKey kvs "default" then .ok "default"
    else if hasKey kvs "function name" then .ok "function"
    else if hasKey kvs "operator" then .ok "operator"
    else if hasKey kvs "sub query" then .ok "sub query"
    else if hasKey kvs "value" then .ok "value"
    else .error "Invalid expression type"

/-- The discriminating shapes in the precedence order stated by the spec:
list, none, bool, int, float, string, column, default, function, operator,
sub_query, value.  This is the spec-side description that
`get_expression_type` is checked against. -/
def discriminators : List (String × (Data → Bool)) :=
  [("Sequence[ExpressionItem]", fun d => match d with | Data.list _ => true | _ => false),
   ("none", fun d => match d with | Data.null => true | _ => false),
   ("bool", fun d => match d with | Data.bool _ => true | _ => false),
   ("int", fun d => match d with | Data.int _ => true | _ => false),
   ("float", fun d => match d with | Data.float _ => true | _ => false),
   ("str", fun d => match d with | Data.str _ => true | _ => false),
   ("column", fun d => hasKeyD d "column"),
   ("default", fun d => hasKeyD d "default"),
   ("function", fun d => hasKeyD d "function name"),
   ("operator", fun d => hasKeyD d "operator"),
   ("sub query", fun d => hasKeyD d "sub query"),
   ("value", fun d => hasKeyD d "value")]

/-- Classify a node by the first discriminating shape it satisfies, in the
spec's fixed precedence order. -/
def specClassify (d : Data) : Except String String :=
  match discriminators.find? (fun p => p.2 d) with
  | Option.some p => .ok p.1
  | Option.none => .error "Invalid expression type"

/-- `parsers.parse_value` (lines 169-203) behind the
`models.ValueExpression` validation (`value: bool|int|float|str|None`,
required): one placeholder, the payload appended unchanged. -/
def parse_value (kw : Dict) : PRes :=
  match lookup kw "value" with
  | Option.none => .error "ValidationError: value field required"
  | Option.some v =>
    match toVal v with
    | Option.some w => .ok ([Frag.placeholder], [w])
    | Option.none => .error "ValidationError: value type"

/-- The fragment of `parsers.parse_expression` (lines 240-256) reached by
literal operands: dispatch through `get_expression_type` and compile the
value case.  Used to instantiate the expression-parser dependency on
concrete inputs whose operands are Value nodes, where it coincides with the
source dispatch. -/
def value_dispatch : PE := fun d _ =>
  match get_expression_type d with
  | .ok t =>
    if t = "value" then
      (match d with
        | Data.dict kvs => parse_value kvs
        | _ => .error "unreachable")
    else .error "restricted embedding: non-value operand"
  | .error e => .error e

/-- `clauses.parse_from_item` (lines 183-222): the first item may carry
neither `type` nor `on`; later items need a valid join type, `on` for
INNER/LEFT/RIGHT/FULL and no `on` for CROSS; then the join token, the
relation (sub-query via the expression parser, or a quoted table), the
alias, and the AND-joined ON list. -/
def parse_from_item (pe : PE) (item : Data) (first : Bool) : PRes :=
  match item with
  | Data.dict kvs =>
    pcat
      (if first then
        (if hasKey kvs "type" || hasKey kvs "on" then
          .error "First FROM item cannot have 'type' or 'on'"
        else pure0)
      else
        optArm (lookup kvs "type")
          (fun tv => excArm (asStr tv) (fun s =>
            if (upper s) = "INNER" || (upper s) = "LEFT" || (upper s) = "RIGHT" ||
                (upper s) = "FULL" || (upper s) = "CROSS" then
              (if ((upper s) = "INNER" || (upper s) = "LEFT" || (upper s) = "RIGHT" ||
                    (upper s) = "FULL") && !(hasKey kvs "on") then
                .error ((upper s) ++ " JOIN must have 'on' clause")
              else if (upper s) = "CROSS" && hasKey kvs "on" then
                .error "CROSS JOIN cannot have 'on' clause"
              else emitF [Frag.sql (" " ++ (upper s) ++ " JOIN ")])
            else .error ("Invalid join type: " ++ (upper s))))
          (.error "JOIN items must have 'type'"))
      (pcat
        (if hasKey kvs "sub query" then pe item Option.none
        else
          optArm (lookup kvs "table") (fun t => identArm t (fun f => emitF [f]))
            (.error "Invalid FROM item"))
        (pcat (aliasArm (lookup kvs "alias"))
          (optArm (lookup kvs "on")
            (fun o => pcat (emitF [Frag.sql " ON "]) (pe o (Option.some " AND ")))
            pure0)))
  | _ => .error "TypeError"

/-- The item loop of `clauses.parse_from` (lines 225-235). -/
def parse_from_items (pe : PE) : List Data → Bool → PRes
  | [], _ => pure0
  | x :: rest, first =>
    pcat (parse_from_item pe x first) (parse_from_items pe rest false)

/-- `clauses.parse_from` (lines 225-235): ` FROM ` then the items. -/
def parse_from (pe : PE) (items : List Data) : PRes :=
  pcat (emitF [Frag.sql " FROM "]) (parse_from_items pe items true)

/-- The per-item FROM rule of the claim: first item carries neither `type`
nor `on`; every later item carries a `type` in
INNER/LEFT/RIGHT/FULL/CROSS, with `on` required for the first four and
forbidden for CROSS. -/
def fromItemOk (item : Data) (first : Bool) : Bool :=
  if first then !(hasKeyD item "type" || hasKeyD item "on")
  else
    match lookupD item "type" with
    | Option.some (Data.str s) =>
      (((upper s) = "INNER" || (upper s) = "LEFT" || (upper s) = "RIGHT" ||
        (upper s) = "FULL" || (upper s) = "CROSS") : Bool) &&
      (if (upper s) = "CROSS" then !(hasKeyD item "on") else hasKeyD item "on")
    | _ => false

/-- The whole-clause FROM rule. -/
def fromRulesOk : List Data → Bool → Bool
  | [], _ => true
  | x :: rest, first => fromItemOk x first && fromRulesOk rest false

/-- `models.CastOperator`: the validated fields of a CAST node. -/
structure CastModel where
  expression : Data
  type : String
  interval : Option String
  varying : Bool
  length : Option Int
  precision : Option Int
  scale : Option Int
  with_time_zone : Option Bool

/-- Parse an `int | None` pydantic field. -/
def intField (o : Option Data) : Except String (Option Int) :=
  match o with
  | Option.none => .ok Option.none
  | Option.some Data.null => .ok Option.none
  | Option.some (Data.int n) => .ok (Option.some n)
  | Option.some _ => .error "ValidationError: int expected"

/-- Parse a `bool` pydantic field with a `False` default. -/
def boolFieldD (o : Option Data) : Except String Bool :=
  match o with
  | Option.none => .ok false
  | Option.some (Data.bool b) => .ok b
  | Option.some _ => .error "ValidationError: bool expected"

/-- Parse a `bool | None` pydantic field. -/
def optBoolField (o : Option Data) : Except String (Option Bool) :=
  match o with
  | Option.none => .ok Option.none
  | Option.some Data.null => .ok Option.none
  | Option.some (Data.bool b) => .ok (Option.some b)
  | Option.some _ => .error "ValidationError: bool expected"

/-- The truthiness test of `CastOperator.check_values`
(`if self.length and self.precision`): both fields present and nonzero. -/
def castBothTruthy (a b : Option Int) : Bool :=
  match a, b with
  | Option.some l, Option.some p => (l != 0) && (p != 0)
  | _, _ => false

/-- `models.CastOperator` construction (lines 330-372): pydantic field
validation (operator normalized to (upper and) fixed to CAST, `type` in the
`DataTypes` allow-list, `interval` in `TimeIntervals`, integer
length/precision/scale, boolean flags) followed by `check_values`, which
rejects the node only when both `length` and `precision` are truthy. -/
def castModelOfDict (kw : Dict) : Except String CastModel := do
  let opv ← (match lookup kw "operator" with
    | Option.some v => asStr v
    | Option.none => Except.error "ValidationError: operator field required")
  let _ ← (if (upper opv) = "CAST" then Except.ok ()
    else Except.error "ValidationError: operator must be CAST" : Except String Unit)
  let expression ← (match lookup kw "expression" with
    | Option.some e => Except.ok e
    | Option.none => Except.error "ValidationError: expression field required")
  let ts ← (match lookup kw "type" with
    | Option.some v => asStr v
    | Option.none => Except.error "ValidationError: type field required")
  let _ ← (if castTypes.contains (upper ts) then Except.ok ()
    else Except.error "ValidationError: type not permitted" : Except String Unit)
  let interval ← (match lookup kw "interval" with
    | Option.none => Except.ok Option.none
    | Option.some v =>
      match asStr v with
      | .error e => Except.error e
      | .ok i =>
        if intervalTypes.contains (upper i) then Except.ok (Option.some (upper i))
        else Except.error "ValidationError: interval not permitted")
  let varying ← boolFieldD (lookup kw "varying")
  let length ← intField (lookup kw "length")
  let precision ← intField (lookup kw "precision")
  let scale ← intField (lookup kw "scale")
  let wtz ← optBoolField (lookup kw "with_time_zone")
  if castBothTruthy length precision then
    Except.error "ValidationError: cannot have both length and precision"
  else
    Except.ok ⟨expression, (upper ts), interval, varying, length, precision, scale, wtz⟩

/-- `operators.parse_cast_operator` (lines 86-118): validate the model, then
emit `CAST(`, the compiled expression, the ` AS TYPE ` token (the
`type_name` computed field carries a space on both sides), the interval
unit, ` VARYING`, the `length or precision` suffix with optional scale, the
WITH/WITHOUT TIME ZONE modifier, and the closing parenthesis. -/
def parse_cast_operator (pe : PE) (kw : Dict) : PRes :=
  match castModelOfDict kw with
  | .error e => .error e
  | .ok m =>
    pcat (emitF [Frag.sql "CAST("])
      (pcat (pe m.expression Option.none)
        (pcat (emitF [Frag.sql (" AS " ++ m.type ++ " ")])
          (pcat
            (match m.interval with
              | Option.some i => emitF [Frag.sql i]
              | Option.none => pure0)
            (pcat (if m.varying then emitF [Frag.sql " VARYING"] else pure0)
              (pcat
                (match (match m.length with
                    | Option.some l => if l != 0 then Option.some l else m.precision
                    | Option.none => m.precision) with
                  | Option.some x =>
                    if x != 0 then
                      pcat (emitF [Frag.sql ("(" ++ toString x)])
                        (pcat
                          (match m.scale with
                            | Option.some sc =>
                              if sc != 0 then emitF [Frag.sql (", " ++ toString sc)]
                              else pure0
                            | Option.none => pure0)
                          (emitF [Frag.sql ")"]))
                    else pure0
                  | Option.none => pure0)
                (pcat
                  (match m.with_time_zone with
                    | Option.some true => emitF [Frag.sql " WITH TIME ZONE"]
                    | Option.some false => emitF [Frag.sql " WITHOUT TIME ZONE"]
                    | Option.none => pure0)
                  (emitF [Frag.sql ")"])))))))

end NW

/-- The concrete scenario spec of the claim:
`{select:[{column:"name"}], from:[{table:"t"}],
where:[{left:{column:"id"}, operator:"=", right:{value:5}}]}`. -/
def c3spec : Data := Data.dict
  [("select", Data.list [Data.dict [("column", Data.str "name")]]),
   ("from", Data.list [Data.dict [("table", Data.str "t")]]),
   ("where", Data.list [Data.dict
     [("left", Data.dict [("column", Data.str "id")]),
      ("operator", Data.str "="),
      ("right", Data.dict [("value", Data.int 5)])]])]

/-- The fragments `build_statement` emits for `c3spec`. -/
def c3frags : List Frag :=
  [Frag.sql "", Frag.sql " SELECT ", Frag.ident "name", Frag.sql " FROM ",
   Frag.ident "t", Frag.sql " WHERE ", Frag.ident "id", Frag.sql " = ",
   Frag.placeholder]

/-- A spec whose only Value payload is the string `SELECT`, which also
occurs in the command text as the SELECT keyword. -/
def c2spec : Data := Data.dict
  [("select", Data.list [Data.dict [("value", Data.str "SELECT")]])]

/-- The fragments `build_statement` emits for `c2spec`. -/
def c2frags : List Frag := [Frag.sql "", Frag.sql " SELECT ", Frag.placeholder]

/-- A two-value spec exercising the parameter order (select before where). -/
def c1wspec : Data := Data.dict
  [("select", Data.list [Data.dict [("value", Data.int 1)]]),
   ("where", Data.list [Data.dict [("value", Data.int 2)]])]

/-- A spec carrying two primary-verb keys whose selected verb (insert) is
itself invalid: `{insert: {}, select: [{column:"a"}]}`. -/
def c9spec : Data := Data.dict
  [("insert", Data.dict []),
   ("select", Data.list [Data.dict [("column", Data.str "a")]])]

/-- A combine list whose final item carries `type`. -/
def c5items : List Data :=
  [Data.dict [("sub_query", Data.dict [])],
   Data.dict [("sub_query", Data.dict []), ("type", Data.str "UNION")]]

/-- A FROM clause whose CROSS join carries an `on` list. -/
def c4items : List Data :=
  [Data.dict [("table", Data.str "t1")],
   Data.dict
     [("table", Data.str "t2"), ("type", Data.str "CROSS"),
      ("on", Data.list [])]]

/-- A CAST node supplying both `length` (zero) and `precision`. -/
def c7kw : Dict :=
  [("operator", Data.str "CAST"),
   ("expression", Data.dict [("value", Data.float "5.23")]),
   ("type", Data.str "DECIMAL"), ("length", Data.int 0),
   ("precision", Data.int 5)]

/-- A CAST node supplying both `length` and `precision` as nonzero. -/
def c7wkw : Dict :=
  [("operator", Data.str "CAST"),
   ("expression", Data.dict [("value", Data.float "5.23")]),
   ("type", Data.str "DECIMAL"), ("length", Data.int 5),
   ("precision", Data.int 5)]

/-- Two group-by column items for the joiner witness. -/
def c8items : List Data :=
  [Data.dict [("column", Data.str "a")], Data.dict [("column", Data.str "b")]]

/-- The parameterization invariant of one compiler call: whenever the call
returns normally, its appended parameters are exactly `v` and its emitted
fragments contain exactly `v.length` placeholder tokens. -/
def GoodV (r : PRes) (v : List Val) : Prop :=
  ∀ δ w, r = .ok (δ, w) → w = v ∧ countPh δ = v.length

theorem countPh_append : ∀ a b : List Frag, countPh (a ++ b) = countPh a + countPh b := by
  intro a b
  induction a with
  | nil => simp [countPh]
  | cons f rest ih =>
    cases f <;> simp [countPh, ih] <;> omega

theorem goodV_error (e : String) (v : List Val) : GoodV (.error e) v := by
  intro δ w h
  cases h

theorem goodV_pure0 : GoodV pure0 [] := by
  intro δ w h
  simp [pure0] at h
  obtain ⟨h1, h2⟩ := h
  subst h1; subst h2
  simp [countPh]

theorem goodV_emit (fs : List Frag) (h : countPh fs = 0) : GoodV (emitF fs) [] := by
  intro δ w hr
  simp [emitF] at hr
  obtain ⟨h1, h2⟩ := hr
  subst h1; subst h2
  simpa using h

theorem goodV_value (fs : List Frag) (v : Val) (h : countPh fs = 1) :
    GoodV (.ok (fs, [v])) [v] := by
  intro δ w hr
  simp at hr
  obtain ⟨h1, h2⟩ := hr
  subst h1; subst h2
  simpa using h

theorem goodV_pcat {a b : PRes} {va vb : List Val}
    (ha : GoodV a va) (hb : GoodV b vb) : GoodV (pcat a b) (va ++ vb) := by
  intro δ w hr
  unfold pcat at hr
  cases hA : a with
  | error e => rw [hA] at hr; cases hr
  | ok p =>
    obtain ⟨d1, w1⟩ := p
    rw [hA] at hr
    cases hB : b with
    | error e => rw [hB] at hr; cases hr
    | ok q =>
      obtain ⟨d2, w2⟩ := q
      rw [hB] at hr
      simp at hr
      obtain ⟨h1, h2⟩ := hr
      obtain ⟨ha1, ha2⟩ := ha d1 w1 hA
      obtain ⟨hb1, hb2⟩ := hb d2 w2 hB
      subst h1; subst h2
      constructor
      · rw [ha1, hb1]
      · rw [countPh_append, ha2, hb2]
        simp

theorem goodV_congr {r : PRes} {v v' : List Val} (h : GoodV r v) (hv : v = v') :
    GoodV r v' := hv ▸ h

theorem goodV_identArm (x : Data) {g : Frag → PRes}
    (h : ∀ s, GoodV (g (Frag.ident s)) []) :
    GoodV (identArm x g) [] := by
  cases x <;> simp [identArm, identE] <;> first
    | exact goodV_error _ _
    | exact h _

theorem goodV_parse_value (kw : Dict) : GoodV (parse_value kw) (valueVals kw) := by
  unfold parse_value valueVals
  cases h : lookup kw "value" with
  | none => simp only [h]; exact goodV_error _ _
  | some v =>
    simp only [h]
    cases h2 : toVal v with
    | none => simp only [h2]; exact goodV_error _ _
    | some w => simp only [h2]; exact goodV_value [Frag.placeholder] w (by decide)

theorem goodV_parse_column (kw : Dict) : GoodV (parse_column kw) [] := by
  unfold parse_column
  cases lookup kw "column" with
  | none => exact goodV_error _ _
  | some col =>
    have h1 : GoodV (match lookup kw "correlation" with
        | Option.some c => identArm c (fun f => emitF [f, Frag.sql "."])
        | Option.none => pure0) [] := by
      cases lookup kw "correlation" with
      | none => exact goodV_pure0
      | some c => exact goodV_identArm c (fun s => goodV_emit _ rfl)
    have h2 : GoodV (match col with
        | Data.str s => if s = "*" then emitF [Frag.sql "*"] else emitF [Frag.ident s]
        | _ => .error "TypeError: SQL identifier parts must be strings") [] := by
      cases col <;> try exact goodV_error _ _
      rename_i s
      by_cases hs : s = "*" <;> simp [hs] <;> exact goodV_emit _ rfl
    exact goodV_congr (goodV_pcat h1 h2) rfl

theorem goodV_colIdents : ∀ (xs : List Data) (first : Bool), GoodV (colIdents xs first) [] := by
  intro xs
  induction xs with
  | nil => intro first; exact goodV_pure0
  | cons x rest ih =>
    intro first
    unfold colIdents
    have hsep : GoodV (if first then pure0 else emitF [Frag.sql ", "]) [] := by
      cases first <;> simp <;> first
        | exact goodV_pure0
        | exact goodV_emit _ rfl
    have hx : GoodV (identArm x (fun f => emitF [f])) [] :=
      goodV_identArm x (fun s => goodV_emit _ rfl)
    exact goodV_congr (goodV_pcat hsep (goodV_pcat hx (ih false))) rfl

theorem goodV_parse_column_list (d : Data) : GoodV (parse_column_list d) [] := by
  unfold parse_column_list
  cases Data.iter d with
  | error e => exact goodV_error _ _
  | ok xs =>
    exact goodV_congr
      (goodV_pcat (goodV_emit _ rfl)
        (goodV_pcat (goodV_colIdents xs true) (goodV_emit _ rfl))) rfl

theorem goodV_ifsame {c : Prop} [Decidable c] {a b : PRes} {v : List Val}
    (ha : GoodV a v) (hb : GoodV b v) : GoodV (if c then a else b) v := by
  by_cases h : c <;> simp [h] <;> assumption

theorem goodV_pif {c : Prop} [Decidable c] {a b : PRes} {va vb : List Val}
    (ha : GoodV a va) (hb : GoodV b vb) :
    GoodV (if c then a else b) (if c then va else vb) := by
  by_cases h : c <;> simp [h] <;> assumption

theorem goodV_maybe {kvs : Dict} {k : String} {f : Data → PRes} {g : Data → List Val}
    (h : ∀ x, GoodV (f x) (g x)) : GoodV (maybeRun kvs k f) (maybeVals kvs k g) := by
  unfold maybeRun maybeVals
  cases hl : lookup kvs k <;> simp only [hl]
  · exact goodV_pure0
  · exact h _

theorem vals_deleteClause (n : Nat) : vals n Call.deleteClause = [] := by
  cases n <;> rfl

theorem vals_insertClause (n : Nat) (x : Data) : vals n (.insertClause x) = [] := by
  cases n <;> rfl

theorem goodV_pcat0 {a b : PRes} {v : List Val} (ha : GoodV a []) (hb : GoodV b v) :
    GoodV (pcat a b) v :=
  goodV_congr (goodV_pcat ha hb) (by simp)

theorem goodV_pcat0r {a b : PRes} {v : List Val} (ha : GoodV a v) (hb : GoodV b []) :
    GoodV (pcat a b) v :=
  goodV_congr (goodV_pcat ha hb) (by simp)

theorem goodV_optArmC {α : Type} (o : Option α) {f : α → PRes} {z : PRes} {v : List Val}
    (hf : ∀ x, GoodV (f x) v) (hz : GoodV z v) : GoodV (optArm o f z) v := by
  unfold optArm
  cases o
  · exact hz
  · exact hf _

theorem goodV_optArm {α : Type} (o : Option α) (g : α → List Val) {f : α → PRes}
    {z : PRes} {v : List Val} (hf : ∀ x, GoodV (f x) (g x)) (hz : GoodV z v) :
    GoodV (optArm o f z) (optVal o g v) := by
  unfold optArm optVal
  cases o
  · exact hz
  · exact hf _

theorem goodV_excArmC {α : Type} (e : Except String α) {f : α → PRes} {v : List Val}
    (hf : ∀ x, GoodV (f x) v) : GoodV (excArm e f) v := by
  unfold excArm
  cases e
  · exact goodV_error _ _
  · exact hf _

theorem goodV_excArm {α : Type} (e : Except String α) (g : α → List Val) {f : α → PRes}
    (hf : ∀ x, GoodV (f x) (g x)) : GoodV (excArm e f) (excVal e g) := by
  unfold excArm excVal
  cases e
  · exact goodV_error _ _
  · exact hf _

theorem goodV_aliasArm (o : Option Data) : GoodV (aliasArm o) [] :=
  goodV_optArmC o (fun a => goodV_identArm a (fun _ => goodV_emit _ rfl)) goodV_pure0

theorem goodV_columnsArm (o : Option Data) : GoodV (columnsArm o) [] :=
  goodV_optArmC o (fun c => goodV_parse_column_list c) goodV_pure0

theorem goodV_combineTypeArm (x : Data) : GoodV (combineTypeArm x) [] := by
  unfold combineTypeArm
  exact goodV_optArmC _
    (fun tv => goodV_excArmC _
      (fun s => goodV_ifsame (goodV_emit _ rfl) (goodV_error _ _)))
    (goodV_error _ _)

theorem goodV_combineAllArm (x : Data) : GoodV (combineAllArm x) [] := by
  unfold combineAllArm
  exact goodV_ifsame (goodV_emit _ rfl) (goodV_emit _ rfl)

theorem goodV_joinTypeArm (x : Data) : GoodV (joinTypeArm x) [] := by
  unfold joinTypeArm
  exact goodV_optArmC _
    (fun tv => goodV_excArmC _
      (fun s => goodV_ifsame (goodV_emit _ rfl) (goodV_error _ _)))
    (goodV_error _ _)

theorem goodV_intervalArm (kw : Dict) : GoodV (intervalArm kw) [] := by
  unfold intervalArm
  exact goodV_optArmC _
    (fun iv => goodV_excArmC _
      (fun i => goodV_ifsame (goodV_emit _ rfl) (goodV_error _ _)))
    goodV_pure0

theorem goodV_castScaleArm (kw : Dict) : GoodV (castScaleArm kw) [] := by
  unfold castScaleArm
  cases hx : lookup kw "scale"
  · exact goodV_pure0
  · rename_i v
    cases v <;> first
      | exact goodV_pure0
      | exact goodV_emit _ rfl

theorem goodV_castLenArm (kw : Dict) : GoodV (castLenArm kw) [] := by
  unfold castLenArm
  cases hx : lookup kw "length"
  case none =>
    cases hp : lookup kw "precision"
    · exact goodV_pure0
    · rename_i p
      cases p <;> first
        | exact goodV_pure0
        | exact goodV_pcat0 (goodV_emit _ rfl)
            (goodV_pcat0 (goodV_castScaleArm kw) (goodV_emit _ rfl))
  case some v =>
    cases v <;> try exact goodV_emit _ rfl
    all_goals {
      cases hp : lookup kw "precision"
      · exact goodV_pure0
      · rename_i p
        cases p <;> first
          | exact goodV_pure0
          | exact goodV_pcat0 (goodV_emit _ rfl)
              (goodV_pcat0 (goodV_castScaleArm kw) (goodV_emit _ rfl))
    }

/-- Master parameterization lemma for the old-revision compiler: every
successful call appends exactly the payloads of the Value nodes it visits, in
visiting order, and one placeholder token per appended payload. -/
theorem goodRun : ∀ (fuel : Nat) (c : Call), GoodV (run fuel c) (vals fuel c) := by
  intro fuel
  induction fuel with
  | zero => intro c; exact goodV_error _ _
  | succ n ih =>
    intro c
    cases c with
    | bs d =>
      cases d <;> simp only [run, vals] <;> try exact goodV_error _ _
      exact goodV_pcat0 (goodV_emit _ rfl)
        (goodV_pcat (goodV_maybe fun x => ih _)
          (goodV_pcat (goodV_maybe fun x => ih _)
            (goodV_pcat
              (goodV_optArm _ _ (fun _ => ih _)
                (goodV_optArm _ _ (fun x => ih _)
                  (goodV_optArm _ _ (fun x => ih _)
                    (goodV_optArm _ _ (fun x => ih _) goodV_pure0))))
              (goodV_pcat (goodV_maybe fun x => ih _)
                (goodV_pcat (goodV_maybe fun x => ih _)
                  (goodV_pcat (goodV_maybe fun x => ih _)
                    (goodV_pcat (goodV_maybe fun x => ih _)
                      (goodV_pcat (goodV_maybe fun x => ih _)
                        (goodV_pcat (goodV_maybe fun x => ih _)
                          (goodV_pcat (goodV_maybe fun x => ih _)
                            (goodV_pcat (goodV_maybe fun x => ih _)
                              (goodV_maybe fun x => ih _))))))))))))
    | combineClause d =>
      simp only [run, vals]
      exact goodV_excArm _ _ (fun xs => ih _)
    | combineItems xs =>
      simp only [run, vals]
      cases xs with
      | nil => exact goodV_pure0
      | cons x rest =>
        exact goodV_pcat (ih _)
          (goodV_pif (goodV_ifsame (goodV_error _ _) goodV_pure0)
            (goodV_pcat0 (goodV_combineTypeArm x)
              (goodV_pcat0 (goodV_combineAllArm x) (ih _))))
    | withClause d =>
      simp only [run, vals]
      exact goodV_excArm _ _ (fun xs => goodV_pcat0 (goodV_emit _ rfl) (ih _))
    | withItem d =>
      cases d <;> simp only [run, vals] <;> try exact goodV_error _ _
      refine goodV_ifsame (goodV_error _ _) ?_
      exact goodV_pcat0 (goodV_ifsame (goodV_emit _ rfl) goodV_pure0)
        (goodV_pcat0
          (goodV_optArmC _ (fun nm => goodV_identArm nm (fun s => goodV_emit _ rfl))
            (goodV_error _ _))
          (goodV_pcat0 (goodV_columnsArm _)
            (goodV_pcat0 (goodV_emit _ rfl)
              (goodV_pcat0
                (goodV_optArmC _
                  (fun v => goodV_ifsame (goodV_emit _ rfl) (goodV_emit _ rfl))
                  goodV_pure0)
                (goodV_pcat0 (goodV_emit _ rfl) (ih _))))))
    | deleteClause =>
      simp only [run, vals]
      exact goodV_emit _ rfl
    | insertClause d =>
      cases d <;> simp only [run, vals] <;> try exact goodV_error _ _
      exact goodV_optArmC _
        (fun t => goodV_pcat0 (goodV_identArm t (fun s => goodV_emit _ rfl))
          (goodV_pcat0 (goodV_aliasArm _) (goodV_columnsArm _)))
        (goodV_error _ _)
    | selectClause d =>
      simp only [run, vals]
      exact goodV_excArm _ _ (fun xs => goodV_pcat0 (goodV_emit _ rfl) (ih _))
    | selectItem d =>
      simp only [run, vals]
      exact goodV_pcat0r (ih _) (goodV_aliasArm _)
    | updateClause d =>
      cases d <;> simp only [run, vals] <;> try exact goodV_error _ _
      rename_i kvs
      refine goodV_optArm _ _ ?_ (goodV_error _ _)
      intro t
      refine goodV_pcat0 (goodV_identArm t (fun s => goodV_emit _ rfl)) ?_
      refine goodV_pcat0 (goodV_aliasArm _) ?_
      refine goodV_optArm _
        (fun (sv : Data) =>
          match sv with
          | Data.dict ps => vals n (.updateSet ps true)
          | _ => []) ?_ (goodV_error _ _)
      intro sv
      cases sv <;> try exact goodV_error _ _
      exact goodV_pcat0 (goodV_emit _ rfl) (ih _)
    | updateSet ps first =>
      simp only [run, vals]
      cases ps with
      | nil => exact goodV_pure0
      | cons p rest =>
        obtain ⟨col, v⟩ := p
        exact goodV_pcat0 (goodV_ifsame goodV_pure0 (goodV_emit _ rfl))
          (goodV_pcat0 (goodV_emit _ rfl) (goodV_pcat (ih _) (ih _)))
    | valuesClause d =>
      simp only [run, vals]
      exact goodV_excArm _ _ (fun xs => goodV_pcat0 (goodV_emit _ rfl) (ih _))
    | valuesItems xs first =>
      simp only [run, vals]
      cases xs with
      | nil => exact goodV_pure0
      | cons x rest =>
        exact goodV_pcat0 (goodV_ifsame goodV_pure0 (goodV_emit _ rfl))
          (goodV_pcat0 (goodV_emit _ rfl)
            (goodV_pcat (ih _) (goodV_pcat0 (goodV_emit _ rfl) (ih _))))
    | fromClause d =>
      simp only [run, vals]
      exact goodV_excArm _ _ (fun xs => goodV_pcat0 (goodV_emit _ rfl) (ih _))
    | fromItems xs first =>
      simp only [run, vals]
      cases xs with
      | nil => exact goodV_pure0
      | cons x rest =>
        exact goodV_pcat0 (goodV_ifsame goodV_pure0 (goodV_joinTypeArm x))
          (goodV_pcat (ih _) (ih _))
    | fromItem d =>
      cases d <;> simp only [run, vals] <;> try exact goodV_error _ _
      exact goodV_pcat0r
        (goodV_pif (ih _)
          (goodV_optArmC _ (fun t => goodV_identArm t (fun s => goodV_emit _ rfl))
            (goodV_error _ _)))
        (goodV_aliasArm _)
    | whereClause d =>
      simp only [run, vals]
      exact goodV_excArm _ _ (fun xs => goodV_pcat0 (goodV_emit _ rfl) (ih _))
    | groupByClause d =>
      simp only [run, vals]
      exact goodV_excArm _ _ (fun xs => goodV_pcat0 (goodV_emit _ rfl) (ih _))
    | havingClause d =>
      simp only [run, vals]
      exact goodV_excArm _ _ (fun xs => goodV_pcat0 (goodV_emit _ rfl) (ih _))
    | orderByClause d =>
      simp only [run, vals]
      exact goodV_excArm _ _ (fun xs => goodV_pcat0 (goodV_emit _ rfl) (ih _))
    | orderByItem d =>
      cases d <;> simp only [run, vals] <;> try exact goodV_error _ _
      exact goodV_excArm _ _
        (fun direction =>
          goodV_pif (goodV_pcat0r (ih _) (goodV_emit _ rfl)) (goodV_error _ _))
    | limitClause d =>
      simp only [run, vals]
      exact goodV_pcat0 (goodV_emit _ rfl) (ih _)
    | offsetClause d =>
      simp only [run, vals]
      exact goodV_pcat0 (goodV_emit _ rfl) (ih _)
    | returningClause d =>
      simp only [run, vals]
      exact goodV_excArm _ _ (fun xs => goodV_pcat0 (goodV_emit _ rfl) (ih _))
    | expr d joiner tag =>
      cases d <;> simp only [run, vals] <;> try exact goodV_error _ _
      · exact ih _
      · rename_i kvs
        refine goodV_pif (goodV_parse_column kvs)
          (goodV_pif (ih _)
            (goodV_pif (ih _)
              (goodV_pif (goodV_parse_value kvs)
                (goodV_pif (goodV_emit _ rfl) ?_))))
        exact goodV_optArm _ _
          (fun sq => goodV_pcat0 (goodV_emit _ rfl) (goodV_pcat0r (ih _) (goodV_emit _ rfl)))
          (goodV_error _ _)
    | exprItems xs joiner tag first =>
      simp only [run, vals]
      cases xs with
      | nil => exact goodV_pure0
      | cons x rest =>
        have hsep : GoodV
            (if first then pure0
            else
              emitF [Frag.sql (match joiner with
                | Option.some j => j
                | Option.none => ", ")]) [] :=
          goodV_ifsame goodV_pure0 (goodV_emit _ rfl)
        cases tag with
        | none => exact goodV_pcat0 hsep (goodV_pcat (ih _) (ih _))
        | some t => cases t <;> exact goodV_pcat0 hsep (goodV_pcat (ih _) (ih _))
    | exprFunction kw =>
      simp only [run, vals]
      refine goodV_optArm _ _ ?_ (goodV_error _ _)
      intro fv
      refine goodV_excArm _ _ ?_
      intro s
      refine goodV_pif ?_ (goodV_error _ _)
      exact goodV_pcat0
        (goodV_optArmC _ (fun sc => goodV_identArm sc (fun s2 => goodV_emit _ rfl))
          goodV_pure0)
        (goodV_pcat0 (goodV_emit _ rfl) (goodV_pcat0r (ih _) (goodV_emit _ rfl)))
    | exprOperator kw =>
      simp only [run, vals]
      refine goodV_optArm _ _ ?_ (goodV_error _ _)
      intro ov
      refine goodV_excArm _ _ ?_
      intro s
      exact goodV_pif (ih _)
        (goodV_pif (ih _)
          (goodV_pif (ih _)
            (goodV_pif (ih _)
              (goodV_pif (ih _)
                (goodV_pif (ih _)
                  (goodV_pif (ih _) (goodV_error _ _)))))))
    | opBinary tok kw =>
      simp only [run, vals]
      exact goodV_ifsame
        (goodV_pcat (ih _) (goodV_pcat0 (goodV_emit _ rfl) (ih _)))
        (goodV_error _ _)
    | opUnary tok kw =>
      simp only [run, vals]
      exact goodV_optArm _ _
        (fun o => goodV_pcat0 (goodV_emit _ rfl) (ih _)) (goodV_error _ _)
    | opMixed tok kw =>
      simp only [run, vals]
      refine goodV_pif (ih _) ?_
      refine goodV_optArm _
        (fun o =>
          match o with
          | Data.null => []
          | _ => vals n (.opUnary tok (setKey kw "operand" o))) ?_ (goodV_error _ _)
      intro o
      cases o <;> first
        | exact goodV_error _ _
        | exact ih _
    | opAnd kw =>
      simp only [run, vals]
      exact goodV_optArm _ _
        (fun es => goodV_pcat0 (goodV_emit _ rfl) (goodV_pcat0r (ih _) (goodV_emit _ rfl)))
        (goodV_error _ _)
    | opOr kw =>
      simp only [run, vals]
      exact goodV_optArm _ _
        (fun es => goodV_pcat0 (goodV_emit _ rfl) (goodV_pcat0r (ih _) (goodV_emit _ rfl)))
        (goodV_error _ _)
    | opCast kw =>
      simp only [run, vals]
      refine goodV_pif (goodV_error _ _) ?_
      refine goodV_optArm _ _ ?_ (goodV_error _ _)
      intro tv
      refine goodV_excArm _ _ ?_
      intro s
      refine goodV_pif ?_ (goodV_error _ _)
      refine goodV_pcat0 (goodV_emit _ rfl) ?_
      refine goodV_pcat0r (ih _) ?_
      exact goodV_pcat0 (goodV_emit _ rfl)
        (goodV_pcat0 (goodV_intervalArm kw)
          (goodV_pcat0 (goodV_ifsame (goodV_emit _ rfl) goodV_pure0)
            (goodV_pcat0 (goodV_castLenArm kw)
              (goodV_pcat0 (goodV_ifsame (goodV_emit _ rfl) goodV_pure0)
                (goodV_emit _ rfl)))))
    | opIn kw =>
      simp only [run, vals]
      refine goodV_pif (goodV_error _ _) ?_
      refine goodV_optArm _
        (fun (rv : Data) =>
          match rv with
          | Data.list xs =>
            vals n (.expr (getD kw "left") Option.none Option.none) ++
              vals n (.exprItems xs Option.none Option.none true)
          | _ => []) ?_ (goodV_error _ _)
      intro rv
      cases rv <;> try exact goodV_error _ _
      exact goodV_pcat (ih _)
        (goodV_pcat0 (goodV_emit _ rfl) (goodV_pcat0r (ih _) (goodV_emit _ rfl)))
    | opTrim kw =>
      simp only [run, vals]
      refine goodV_optArm _ _ ?_ (goodV_error _ _)
      intro e
      refine goodV_pcat0 (goodV_emit _ rfl) ?_
      refine goodV_pcat0
        (goodV_ifsame (goodV_emit _ rfl)
          (goodV_ifsame (goodV_emit _ rfl)
            (goodV_ifsame (goodV_emit _ rfl) goodV_pure0))) ?_
      refine goodV_pcat
        (goodV_optArm _ _
          (fun ch => goodV_pcat0r (ih _) (goodV_emit _ rfl)) goodV_pure0) ?_
      exact goodV_pcat0 (goodV_emit _ rfl) (goodV_pcat0r (ih _) (goodV_emit _ rfl))

theorem pcat_ok {a b : PRes} {r : List Frag × List Val} (h : pcat a b = .ok r) :
    (∃ ra, a = .ok ra) ∧ ∃ rb, b = .ok rb := by
  cases a with
  | error e => simp [pcat] at h
  | ok ra =>
    cases b with
    | error e => obtain ⟨d1, w1⟩ := ra; simp [pcat] at h
    | ok rb => exact ⟨⟨ra, rfl⟩, ⟨rb, rfl⟩⟩

theorem pcat_ok_parts {a b : PRes} {δ : List Frag} {w : List Val}
    (h : pcat a b = .ok (δ, w)) :
    ∃ d1 w1 d2 w2, a = .ok (d1, w1) ∧ b = .ok (d2, w2) ∧ δ = d1 ++ d2 ∧ w = w1 ++ w2 := by
  cases a with
  | error e => simp [pcat] at h
  | ok ra =>
    obtain ⟨d1, w1⟩ := ra
    cases b with
    | error e => simp [pcat] at h
    | ok rb =>
      obtain ⟨d2, w2⟩ := rb
      simp [pcat] at h
      exact ⟨d1, w1, d2, w2, rfl, rfl, h.1.symm, h.2.symm⟩

theorem bind_ok {α β : Type} {x : Except String α} {f : α → Except String β} {b : β}
    (h : x >>= f = .ok b) : ∃ a, x = .ok a ∧ f a = .ok b := by
  cases x with
  | error e => simp [Bind.bind, Except.bind] at h
  | ok a => exact ⟨a, rfl, by simpa [Bind.bind, Except.bind] using h⟩

theorem asStr_ok {v : Data} {s : String} (h : asStr v = .ok s) : v = Data.str s := by
  cases v <;> simp_all [asStr]

/-- C1: for every spec that `build_statement` compiles successfully, the
returned parameter list is exactly the pre-order traversal of the spec's
Value payloads (`vals`), and the command carries exactly one placeholder
token per parameter — so a spec with N Value nodes yields N placeholders
and N parameters, in traversal order. -/
theorem c1_parameterization (fuel : Nat) (spec : Data) (fr : List Frag) (ps : List Val)
    (h : run fuel (.bs spec) = .ok (fr, ps)) :
    ps = vals fuel (.bs spec) ∧ countPh fr = ps.length := by
  obtain ⟨h1, h2⟩ := goodRun fuel (.bs spec) fr ps h
  exact ⟨h1, by rw [h1, h2]⟩

theorem c1_parameterization_witness :
    run 16 (.bs c1wspec) = .ok
      ([Frag.sql "", Frag.sql " SELECT ", Frag.placeholder, Frag.sql " WHERE ",
        Frag.placeholder], [Val.int 1, Val.int 2]) ∧
    ([Val.int 1, Val.int 2] = vals 16 (.bs c1wspec) ∧
      countPh [Frag.sql "", Frag.sql " SELECT ", Frag.placeholder, Frag.sql " WHERE ",
        Frag.placeholder] = [Val.int 1, Val.int 2].length) :=
  ⟨rfl, c1_parameterization 16 c1wspec _ _ rfl⟩

/-- C2 counterexample: the spec `{select:[{value:"SELECT"}]}` compiles
successfully, its only Value payload is the string `SELECT`, and that
payload does occur as a substring of the compiled command text
` SELECT %s` — the claim's substring formulation is false on the code. -/
theorem c2_substring_counterexample :
    run 16 (.bs c2spec) = .ok (c2frags, [Val.str "SELECT"]) ∧
    containsStr (render c2frags) "SELECT" = true :=
  ⟨rfl, by decide⟩

/-- C2 (amended): compiling a Value node contributes exactly one fixed
placeholder token to the command text — a token that does not depend on the
payload in any way — and appends the payload only to the parameter list;
the payload can therefore coincide with command text only where the fixed
grammar tokens or identifiers already contain it, never by being inlined. -/
theorem c2_value_contribution (kw : Dict) (v : Data) (w : Val)
    (hv : lookup kw "value" = Option.some v) (hw : toVal v = Option.some w) :
    parse_value kw = .ok ([Frag.placeholder], [w]) := by
  simp [parse_value, hv, hw]

theorem c2_value_contribution_witness :
    parse_value [("value", Data.str "abc")] = .ok ([Frag.placeholder], [Val.str "abc"]) :=
  c2_value_contribution _ _ _ rfl rfl

/-- C3 counterexample: on the claim's spec the compiled command text is not
the claimed `SELECT "name" FROM "t" WHERE "id" = %s` — the emitted text
carries a leading space (every clause keyword is emitted with a leading
space onto the initially empty statement). -/
theorem c3_exact_text_counterexample :
    run 16 (.bs c3spec) = .ok (c3frags, [Val.int 5]) ∧
    render c3frags ≠ "SELECT \"name\" FROM \"t\" WHERE \"id\" = %s" :=
  ⟨by decide, by decide⟩

/-- C3 (amended): `build_statement` on
`{select:[{column:"name"}], from:[{table:"t"}],
where:[{left:{column:"id"}, operator:"=", right:{value:5}}]}` succeeds and
returns the command ` SELECT "name" FROM "t" WHERE "id" = %s` — identifiers
double-quoted, exactly one placeholder token, with a leading space — and
the parameter list `[5]`. -/
theorem c3_concrete_scenario :
    run 16 (.bs c3spec) = .ok (c3frags, [Val.int 5]) ∧
    render c3frags = " SELECT \"name\" FROM \"t\" WHERE \"id\" = %s" ∧
    countPh c3frags = 1 :=
  ⟨by decide, by decide, rfl⟩

/-- C10: `build_statement` on the empty spec raises nothing: it returns the
empty command text (the single empty SQL fragment renders to the empty
string) and an empty parameter list. -/
theorem c10_empty_spec :
    run 8 (.bs (Data.dict [])) = .ok ([Frag.sql ""], []) ∧
    render [Frag.sql ""] = "" :=
  ⟨rfl, rfl⟩

theorem combineTypeArm_ok {x : Data} {r : List Frag × List Val}
    (h : combineTypeArm x = .ok r) :
    (match lookupD x "type" with
      | Option.some (Data.str s) =>
        ((upper s) = "UNION" || (upper s) = "INTERSECT" || (upper s) = "EXCEPT" : Bool)
      | _ => false) = true := by
  unfold combineTypeArm optArm at h
  cases ht : lookupD x "type" with
  | none => rw [ht] at h; exact absurd h (by simp)
  | some tv =>
    rw [ht] at h
    cases tv
    case str s =>
      simp only [excArm, asStr] at h
      split at h
      · next hcond => simpa using hcond
      · exact absurd h (by simp)
    all_goals simp [excArm, asStr] at h

theorem combine_ok_of_run :
    ∀ (items : List Data) (fuel : Nat) (r : List Frag × List Val),
      run fuel (.combineItems items) = .ok r → combineRulesOk items = true := by
  intro items
  induction items with
  | nil => intro fuel r h; rfl
  | cons x rest ih =>
    intro fuel r h
    cases fuel with
    | zero => simp [run] at h
    | succ n =>
      simp only [run] at h
      obtain ⟨⟨r1, h1⟩, ⟨r2, h2⟩⟩ := pcat_ok h
      cases rest with
      | nil =>
        simp only [List.isEmpty, if_true] at h2
        split at h2
        · simp at h2
        · next hcond =>
          simp only [combineRulesOk]
          simp only [Bool.or_eq_true, not_or] at hcond
          simp [Bool.or_eq_true, hcond]
      | cons y rest2 =>
        simp only [List.isEmpty] at h2
        obtain ⟨⟨r3, h3⟩, ⟨r4, h4⟩⟩ := pcat_ok h2
        obtain ⟨⟨r5, h5⟩, ⟨r6, h6⟩⟩ := pcat_ok h4
        have htype := combineTypeArm_ok h3
        have hrest := ih n r6 h6
        simp only [combineRulesOk]
        rw [hrest]
        simp only [Bool.and_true]
        exact htype

/-- C5: compiling a combine list in which an item other than the last lacks
a valid `type` (UNION/INTERSECT/EXCEPT, case-insensitive), or in which the
final item carries `type` or `all`, never returns a command: `parse_combine`
raises. -/
theorem c5_combine_rules (fuel : Nat) (items : List Data)
    (h : combineRulesOk items = false) :
    isOk (run fuel (.combineItems items)) = false := by
  cases hr : run fuel (.combineItems items) with
  | error e => rfl
  | ok r =>
    have := combine_ok_of_run items fuel r hr
    rw [h] at this
    cases this

theorem c5_combine_rules_witness :
    combineRulesOk c5items = false ∧ isOk (run 8 (.combineItems c5items)) = false :=
  ⟨rfl, c5_combine_rules 8 c5items rfl⟩

/-- C6: the expression-kind classifier `get_expression_type` equals the
first-match classification over the fixed discriminator order
list, none, bool, int, float, str, column, default, function, operator,
sub query, value — so on a mapping carrying several discriminating keys the
earliest key in that order decides the variant. -/
theorem c6_classifier_order (d : Data) :
    NW.get_expression_type d = NW.specClassify d := by
  cases d
  case dict kvs =>
    by_cases h1 : hasKey kvs "column" <;>
    by_cases h2 : hasKey kvs "default" <;>
    by_cases h3 : hasKey kvs "function name" <;>
    by_cases h4 : hasKey kvs "operator" <;>
    by_cases h5 : hasKey kvs "sub query" <;>
    by_cases h6 : hasKey kvs "value" <;>
      simp [NW.get_expression_type, NW.specClassify, NW.discriminators,
        List.find?, hasKeyD, h1, h2, h3, h4, h5, h6]
  all_goals
    simp [NW.get_expression_type, NW.specClassify, NW.discriminators,
      List.find?, hasKeyD]


theorem nw_parse_from_item_ok {pe : NW.PE} {x : Data} {first : Bool}
    {r : List Frag × List Val}
    (h : NW.parse_from_item pe x first = .ok r) :
    NW.fromItemOk x first = true := by
  cases x
  case dict kvs =>
    unfold NW.parse_from_item at h
    obtain ⟨⟨r1, h1⟩, -⟩ := pcat_ok h
    split at h1
    · next hfirst =>
      subst hfirst
      split at h1
      · exact Except.noConfusion h1
      · next hcond =>
        have hkk : (hasKey kvs "type" || hasKey kvs "on") = false := by
          cases hk : (hasKey kvs "type" || hasKey kvs "on") with
          | false => rfl
          | true => exact absurd hk hcond
        simp [NW.fromItemOk, hasKeyD, hkk]
    · next hfirst =>
      have hf : first = false := by
        cases first
        · rfl
        · exact absurd rfl hfirst
      subst hf
      unfold optArm at h1
      cases ht : lookup kvs "type" with
      | none => rw [ht] at h1; exact Except.noConfusion h1
      | some tv =>
        rw [ht] at h1
        cases tv
        case str s =>
          simp only [excArm, asStr] at h1
          simp only [NW.fromItemOk, lookupD, ht]
          split at h1
          · next hvalid =>
            split at h1
            · exact Except.noConfusion h1
            · next hA =>
              split at h1
              · exact Except.noConfusion h1
              · next hB =>
                by_cases hc : (upper s) = "CROSS" <;> simp_all [hasKeyD]
          · exact Except.noConfusion h1
        all_goals simp [excArm, asStr] at h1
  all_goals exact absurd h (by simp [NW.parse_from_item])

theorem nw_parse_from_items_ok {pe : NW.PE} :
    ∀ (items : List Data) (first : Bool) (r : List Frag × List Val),
      NW.parse_from_items pe items first = .ok r →
        NW.fromRulesOk items first = true := by
  intro items
  induction items with
  | nil => intro first r h; rfl
  | cons x rest ih =>
    intro first r h
    simp only [NW.parse_from_items] at h
    obtain ⟨⟨r1, h1⟩, ⟨r2, h2⟩⟩ := pcat_ok h
    simp only [NW.fromRulesOk]
    rw [nw_parse_from_item_ok h1, ih false r2 h2]
    rfl

/-- C4: for every FROM clause, whenever the per-item rules are violated --
the first item carrying `type` or `on`, a later item missing a valid join
`type` (INNER/LEFT/RIGHT/FULL/CROSS), an INNER/LEFT/RIGHT/FULL item missing
`on`, or a CROSS item carrying `on` -- `parse_from` raises and returns no
command, for every expression-parser dependency `pe`. -/
theorem c4_from_rules (pe : NW.PE) (items : List Data)
    (h : NW.fromRulesOk items true = false) :
    isOk (NW.parse_from pe items) = false := by
  cases hr : NW.parse_from pe items with
  | error e => rfl
  | ok r =>
    unfold NW.parse_from at hr
    obtain ⟨-, ⟨r2, h2⟩⟩ := pcat_ok hr
    have hok := nw_parse_from_items_ok items true r2 h2
    rw [h] at hok
    cases hok

theorem c4_from_rules_witness :
    NW.fromRulesOk c4items true = false ∧
      isOk (NW.parse_from NW.peStub c4items) = false :=
  ⟨rfl, c4_from_rules NW.peStub c4items rfl⟩

/-- C7: amended mutual exclusion -- a CAST node whose `length` and
`precision` are both present and truthy (nonzero integers) is rejected by
`CastOperator.check_values`: compilation raises and returns no command, for
every expression-parser dependency `pe`. -/
theorem c7_cast_mutual_exclusion (pe : NW.PE) (kw : Dict) (l p : Int)
    (hl : lookup kw "length" = Option.some (Data.int l)) (hl0 : l ≠ 0)
    (hp : lookup kw "precision" = Option.some (Data.int p)) (hp0 : p ≠ 0) :
    isOk (NW.parse_cast_operator pe kw) = false := by
  unfold NW.parse_cast_operator
  cases hm : NW.castModelOfDict kw with
  | error e => rfl
  | ok m =>
    exfalso
    unfold NW.castModelOfDict at hm
    obtain ⟨opv, h1, hm⟩ := bind_ok hm
    obtain ⟨u1, h2, hm⟩ := bind_ok hm
    obtain ⟨expr, h3, hm⟩ := bind_ok hm
    obtain ⟨ts, h4, hm⟩ := bind_ok hm
    obtain ⟨u2, h5, hm⟩ := bind_ok hm
    obtain ⟨intv, h6, hm⟩ := bind_ok hm
    obtain ⟨vy, h7, hm⟩ := bind_ok hm
    obtain ⟨len, h8, hm⟩ := bind_ok hm
    obtain ⟨prec, h9, hm⟩ := bind_ok hm
    obtain ⟨sc, h10, hm⟩ := bind_ok hm
    obtain ⟨wz, h11, hm⟩ := bind_ok hm
    rw [hl] at h8
    rw [hp] at h9
    simp only [NW.intField, Except.ok.injEq] at h8 h9
    subst h8
    subst h9
    have hb : NW.castBothTruthy (Option.some l) (Option.some p) = true := by
      simp [NW.castBothTruthy, hl0, hp0]
    rw [hb] at hm
    simp at hm

theorem c7_cast_mutual_exclusion_witness :
    lookup c7wkw "length" = Option.some (Data.int 5) ∧ (5 : Int) ≠ 0 ∧
      lookup c7wkw "precision" = Option.some (Data.int 5) ∧
      isOk (NW.parse_cast_operator NW.peStub c7wkw) = false :=
  ⟨rfl, by decide, rfl,
    c7_cast_mutual_exclusion NW.peStub c7wkw 5 5 rfl (by decide) rfl (by decide)⟩

/-- C7 counterexample to the claim as stated: `c7kw` supplies both `length`
(as the integer 0) and `precision`, yet `parse_cast_operator` succeeds --
Python truthiness lets a zero `length` pass `check_values` and fall through
to the `precision` suffix. -/
theorem c7_cast_counterexample :
    hasKey c7kw "length" = true ∧ hasKey c7kw "precision" = true ∧
      NW.parse_cast_operator NW.value_dispatch c7kw =
        .ok ([Frag.sql "CAST(", Frag.placeholder, Frag.sql " AS DECIMAL ",
              Frag.sql "(5", Frag.sql ")", Frag.sql ")"], [Val.float "5.23"]) :=
  ⟨rfl, rfl, by decide⟩


theorem excArm_okInv {α : Type} {e : Except String α} {f : α → PRes}
    {r : List Frag × List Val} (h : excArm e f = .ok r) :
    ∃ a, e = .ok a ∧ f a = .ok r := by
  cases e with
  | error err => simp [excArm] at h
  | ok a => exact ⟨a, rfl, by simpa [excArm] using h⟩

theorem exprItems_parts (j : String) :
    ∀ (xs : List Data) (fuel : Nat) (first : Bool) (δ : List Frag) (w : List Val),
      run fuel (.exprItems xs (Option.some j) Option.none first) = .ok (δ, w) →
      ∃ parts : List (List Frag × List Val),
        List.Forall₂
          (fun it p => ∃ f, run f (.expr it Option.none Option.none) = .ok p)
          xs parts ∧
        δ = (if first then joinWith (Frag.sql j) (parts.map Prod.fst)
             else (parts.map (fun p => Frag.sql j :: p.1)).flatten) ∧
        w = (parts.map Prod.snd).flatten := by
  intro xs
  induction xs with
  | nil =>
    intro fuel first δ w h
    cases fuel with
    | zero => exact absurd h (by simp [run])
    | succ n =>
      injection h with h'
      injection h' with hδ hw
      refine ⟨[], List.Forall₂.nil, ?_, hw.symm⟩
      rw [← hδ]
      cases first <;> rfl
  | cons x rest ih =>
    intro fuel first δ w h
    cases fuel with
    | zero => exact absurd h (by simp [run])
    | succ n =>
      simp only [run] at h
      obtain ⟨d1, w1, d2, w2, hA, hB, hδ, hw⟩ := pcat_ok_parts h
      obtain ⟨d3, w3, d4, w4, hC, hD, hd2, hw2⟩ := pcat_ok_parts hB
      obtain ⟨parts, hpp, hδ4, hw4⟩ := ih n false d4 w4 hD
      have hd4 : d4 = (List.map (fun p => Frag.sql j :: p.1) parts).flatten := by
        simpa using hδ4
      subst hδ
      subst hd2
      subst hw
      subst hw2
      subst hd4
      subst hw4
      cases first
      · injection hA with h'
        injection h' with hd1 hw1
        rw [← hd1, ← hw1]
        refine ⟨(d3, w3) :: parts, List.Forall₂.cons ⟨n, hC⟩ hpp, ?_, ?_⟩
        · simp
        · simp
      · injection hA with h'
        injection h' with hd1 hw1
        rw [← hd1, ← hw1]
        refine ⟨(d3, w3) :: parts, List.Forall₂.cons ⟨n, hC⟩ hpp, ?_, ?_⟩
        · simp [joinWith, List.map_map, Function.comp_def]
        · simp

/-- C8: whenever `parse_group_by` returns normally, the emitted clause is
exactly ` GROUP BY ` followed by the compiled items joined with the
token ` AND ` (not a comma), and the appended parameters are the items'
parameters in order. -/
theorem c8_group_by_joiner (fuel : Nat) (d : Data) (δ : List Frag) (w : List Val)
    (h : run fuel (.groupByClause d) = .ok (δ, w)) :
    ∃ xs parts,
      Data.iter d = .ok xs ∧
      List.Forall₂
        (fun it p => ∃ f, run f (.expr it Option.none Option.none) = .ok p)
        xs parts ∧
      δ = Frag.sql " GROUP BY " :: joinWith (Frag.sql " AND ") (parts.map Prod.fst) ∧
      w = (parts.map Prod.snd).flatten := by
  cases fuel with
  | zero => exact absurd h (by simp [run])
  | succ n =>
    simp only [run] at h
    obtain ⟨xs, hi, h2⟩ := excArm_okInv h
    obtain ⟨d1, w1, d2, w2, hA, hB, hδ, hw⟩ := pcat_ok_parts h2
    injection hA with h'
    injection h' with hd1 hw1
    obtain ⟨parts, hpp, hδ2, hw2⟩ := exprItems_parts " AND " xs n true d2 w2 hB
    have hd2 : d2 = joinWith (Frag.sql " AND ") (parts.map Prod.fst) := by
      simpa using hδ2
    refine ⟨xs, parts, hi, hpp, ?_, ?_⟩
    · subst hδ
      rw [← hd1, hd2]
      rfl
    · subst hw
      rw [← hw1, hw2]
      rfl

theorem c8_group_by_joiner_witness :
    ∃ xs parts,
      Data.iter (Data.list c8items) = .ok xs ∧
      List.Forall₂
        (fun it p => ∃ f, run f (.expr it Option.none Option.none) = .ok p)
        xs parts ∧
      [Frag.sql " GROUP BY ", Frag.ident "a", Frag.sql " AND ", Frag.ident "b"] =
        Frag.sql " GROUP BY " :: joinWith (Frag.sql " AND ") (parts.map Prod.fst) ∧
      ([] : List Val) = (parts.map Prod.snd).flatten :=
  c8_group_by_joiner 8 (Data.list c8items)
    [Frag.sql " GROUP BY ", Frag.ident "a", Frag.sql " AND ", Frag.ident "b"] []
    (by decide)

theorem lookup_filter_not_removed (rem : List String) :
    ∀ (kvs : Dict) (k : String), rem.contains k = false →
      lookup (kvs.filter (fun kv => !(rem.contains kv.1))) k = lookup kvs k := by
  intro kvs
  induction kvs with
  | nil => intro k hk; rfl
  | cons a t ih =>
    intro k hk
    obtain ⟨k1, v1⟩ := a
    by_cases hm : rem.contains k1 = true
    · have hne : ¬(k1 = k) := by
        intro he
        rw [he, hk] at hm
        cases hm
      have h1 : ((k1, v1) :: t).filter (fun kv => !(rem.contains kv.1)) =
          t.filter (fun kv => !(rem.contains kv.1)) := by
        rw [List.filter_cons, hm]
        rfl
      rw [h1]
      simp only [lookup]
      rw [if_neg hne]
      exact ih k hk
    · have hm' : rem.contains k1 = false := by
        cases hmm : rem.contains k1
        · rfl
        · exact absurd hmm hm
      have h1 : ((k1, v1) :: t).filter (fun kv => !(rem.contains kv.1)) =
          (k1, v1) :: t.filter (fun kv => !(rem.contains kv.1)) := by
        rw [List.filter_cons, hm']
        rfl
      rw [h1]
      simp only [lookup]
      by_cases he : k1 = k
      · rw [if_pos he, if_pos he]
      · rw [if_neg he, if_neg he]
        exact ih k hk

theorem filter_keep_all (kvs : Dict) :
    kvs.filter (fun kv => !(([] : List String).contains kv.1)) = kvs := by
  induction kvs with
  | nil => rfl
  | cons a t ih => simp [List.filter_cons, ih]

theorem lookup_some_of_hasKey {kvs : Dict} {k : String}
    (h : hasKey kvs k = true) : ∃ x, lookup kvs k = Option.some x := by
  unfold hasKey at h
  cases hl : lookup kvs k with
  | none => rw [hl] at h; cases h
  | some x => exact ⟨x, rfl⟩

theorem lookup_none_of_hasKey_false {kvs : Dict} {k : String}
    (h : hasKey kvs k = false) : lookup kvs k = Option.none := by
  unfold hasKey at h
  cases hl : lookup kvs k with
  | none => rfl
  | some x => rw [hl] at h; cases h

theorem run_bs_parts_congr (n : Nat) (kvs kvs2 : Dict)
    (hverb :
      optArm (lookup kvs2 "delete") (fun _ => run n .deleteClause)
        (optArm (lookup kvs2 "insert") (fun x => run n (.insertClause x))
          (optArm (lookup kvs2 "select") (fun x => run n (.selectClause x))
            (optArm (lookup kvs2 "update") (fun x => run n (.updateClause x))
              pure0))) =
      optArm (lookup kvs "delete") (fun _ => run n .deleteClause)
        (optArm (lookup kvs "insert") (fun x => run n (.insertClause x))
          (optArm (lookup kvs "select") (fun x => run n (.selectClause x))
            (optArm (lookup kvs "update") (fun x => run n (.updateClause x))
              pure0))))
    (h : ∀ k, k ∈ (["combine", "with", "values", "from", "where", "group_by",
          "having", "order_by", "limit", "offset", "returning"] : List String) →
        lookup kvs2 k = lookup kvs k) :
    run (n + 1) (.bs (Data.dict kvs2)) = run (n + 1) (.bs (Data.dict kvs)) := by
  simp only [run, maybeRun]
  rw [h "combine" (by decide), h "with" (by decide), h "values" (by decide),
    h "from" (by decide), h "where" (by decide), h "group_by" (by decide),
    h "having" (by decide), h "order_by" (by decide), h "limit" (by decide),
    h "offset" (by decide), h "returning" (by decide), hverb]

/-- C9: amended precedence -- `build_statement` reads the primary-verb keys
through an `elif` chain ordered delete, insert, select, update, so it
behaves exactly as if every verb key below the highest-precedence one
present were absent from the spec (`topVerbErase`): lower-precedence verbs
are silently ignored, and whether an error is raised depends only on the
remaining spec. -/
theorem c9_verb_precedence (fuel : Nat) (d : Data) :
    run fuel (.bs (topVerbErase d)) = run fuel (.bs d) := by
  cases d
  case dict kvs =>
    cases fuel with
    | zero => rfl
    | succ n =>
      by_cases hdel : hasKey kvs "delete" = true
      · have hrem : verbKeysBelow kvs = ["insert", "select", "update"] := by
          simp [verbKeysBelow, hdel]
        obtain ⟨xd, hxd⟩ := lookup_some_of_hasKey hdel
        simp only [topVerbErase]
        rw [hrem]
        refine run_bs_parts_congr n kvs _ ?_ ?_
        · rw [lookup_filter_not_removed ["insert", "select", "update"] kvs
            "delete" (by decide), hxd]
          rfl
        · intro k hk
          refine lookup_filter_not_removed ["insert", "select", "update"] kvs k ?_
          fin_cases hk <;> decide
      · have hdel' : hasKey kvs "delete" = false := by
          cases hh : hasKey kvs "delete"
          · rfl
          · exact absurd hh hdel
        have hdn := lookup_none_of_hasKey_false hdel'
        by_cases hins : hasKey kvs "insert" = true
        · have hrem : verbKeysBelow kvs = ["select", "update"] := by
            simp [verbKeysBelow, hdel', hins]
          obtain ⟨xi, hxi⟩ := lookup_some_of_hasKey hins
          simp only [topVerbErase]
          rw [hrem]
          refine run_bs_parts_congr n kvs _ ?_ ?_
          · rw [lookup_filter_not_removed ["select", "update"] kvs "delete"
              (by decide),
              lookup_filter_not_removed ["select", "update"] kvs "insert"
              (by decide), hdn, hxi]
            rfl
          · intro k hk
            refine lookup_filter_not_removed ["select", "update"] kvs k ?_
            fin_cases hk <;> decide
        · have hins' : hasKey kvs "insert" = false := by
            cases hh : hasKey kvs "insert"
            · rfl
            · exact absurd hh hins
          have hin := lookup_none_of_hasKey_false hins'
          by_cases hsel : hasKey kvs "select" = true
          · have hrem : verbKeysBelow kvs = ["update"] := by
              simp [verbKeysBelow, hdel', hins', hsel]
            obtain ⟨xsv, hxs⟩ := lookup_some_of_hasKey hsel
            simp only [topVerbErase]
            rw [hrem]
            refine run_bs_parts_congr n kvs _ ?_ ?_
            · rw [lookup_filter_not_removed ["update"] kvs "delete" (by decide),
                lookup_filter_not_removed ["update"] kvs "insert" (by decide),
                lookup_filter_not_removed ["update"] kvs "select" (by decide),
                hdn, hin, hxs]
              rfl
            · intro k hk
              refine lookup_filter_not_removed ["update"] kvs k ?_
              fin_cases hk <;> decide
          · have hsel' : hasKey kvs "select" = false := by
              cases hh : hasKey kvs "select"
              · rfl
              · exact absurd hh hsel
            have hrem : verbKeysBelow kvs = [] := by
              simp [verbKeysBelow, hdel', hins', hsel']
            simp only [topVerbErase]
            rw [hrem, filter_keep_all]
  all_goals rfl

/-- C9 counterexample to the claim as stated: the spec
`{insert: {}, select: [{column: "a"}]}` carries two primary-verb keys, the
chain selects `insert`, and `build_statement` raises (INSERT without
`table`) instead of raising no error. -/
theorem c9_multi_verb_counterexample :
    hasKeyD c9spec "insert" = true ∧ hasKeyD c9spec "select" = true ∧
      run 8 (.bs c9spec) = .error "INSERT statement must have 'table'" :=
  ⟨rfl, rfl, by decide⟩

end QB
